import Mathlib

/-!
Verification development for the email triage agent.

The Python sources are shallowly embedded as executable Lean definitions:

* namespace `App`   — `app/classification/config.py`, `app/classification/models.py`,
  `app/classification/intent.py`, `app/classification/priority.py`;
* namespace `Llm`   — `app/llm/router.py` (the PII detector it imports,
  `app/guardrails/pii_detector.py`, is absent from the sources and is
  modelled from the spec);
* namespace `Agent` — `email_agent.py`, `drafting/reply_drafter.py`,
  `drafting/clarification_handler.py`, `edge_cases/reply_all_handler.py`.
  The collaborator modules the orchestrator imports (`core`, `guardrails`,
  `tools`, the conflict/DND/legal handlers of `edge_cases`, the top-level
  `models`/`config`) are absent from the sources; their data model is
  reconstructed from their use sites and each behavioural stub is modelled
  from the spec, as flagged by its doc comment.  Where the pipeline only
  consumes a collaborator's answer, the answer is a field of the `Collab`
  record and theorems quantify over it.

Modelling conventions (fixed once, used throughout):

* Python `str` is `String`; text operations are re-implemented over
  `List Char` by structural recursion so that every definition reduces in
  the kernel.  Case mapping is ASCII, matching the repository's data.
* Python `int` is `Int` (or `Nat` for values that stay non-negative);
  `int(x)` on a float truncates toward zero.  The two float products the
  scorer performs, `weight * 1.5` and `score * 1.15`, are modelled exactly:
  the former is exact in binary64, the latter via round-to-nearest-even on
  the 53-bit significand (`pymul115`).
* `datetime` instants are `Option Int` (seconds; `none` for a missing
  date); the injected clock is an explicit `now : Int` parameter.
* Python dictionaries with fixed keys become association lists in
  insertion order; `set(...)` of strings is modelled as first-occurrence
  deduplication (the only set observations made are size and membership,
  which agree).
* A float `confidence` field of the absent `models` module is modelled in
  hundredths (`Int`), with the `0.6` threshold becoming `60`.
-/

set_option maxRecDepth 40000

/-! ## Text and numeric primitives -/

/-- Python's `needle in hay` substring test, over character lists. -/
def listContains (hay needle : List Char) : Bool :=
  match hay with
  | [] => needle.isEmpty
  | _ :: t => needle.isPrefixOf hay || listContains t needle

/-- Python's `needle in hay` substring test on strings. -/
def strContains (needle hay : String) : Bool := listContains hay.data needle.data

/-- ASCII lower-casing of one character (Python `str.lower`, ASCII range). -/
def lowerChar (c : Char) : Char :=
  if 'A' ≤ c && c ≤ 'Z' then Char.ofNat (c.toNat + 32) else c

/-- Python `str.lower()` (ASCII range). -/
def lowerStr (s : String) : String := ⟨s.data.map lowerChar⟩

/-- Python `str.startswith(p)`. -/
def pyStartsWith (s p : String) : Bool := p.data.isPrefixOf s.data

/-- Whitespace recognised by Python's `str.split()` / `str.strip()`. -/
def isPyWs (c : Char) : Bool :=
  c = ' ' || c = '\t' || c = '\n' || c = '\r' || c.toNat = 11 || c.toNat = 12

/-- Helper for `pySplit`: accumulate the current word and finished words. -/
def pySplitAux (cur : List Char) (acc : List (List Char)) : List Char → List (List Char)
  | [] => if cur.isEmpty then acc.reverse else (cur.reverse :: acc).reverse
  | c :: t =>
    if isPyWs c then
      if cur.isEmpty then pySplitAux [] acc t
      else pySplitAux [] (cur.reverse :: acc) t
    else pySplitAux (c :: cur) acc t

/-- Python `str.split()` with no argument: split on whitespace runs, no empties. -/
def pySplit (s : String) : List String := (pySplitAux [] [] s.data).map List.asString

/-- Python `str.strip()`: drop leading and trailing whitespace. -/
def pyStrip (s : String) : String :=
  ⟨((s.data.dropWhile isPyWs).reverse.dropWhile isPyWs).reverse⟩

/-- Python `s.split(sep)` for a single-character separator. -/
def splitOnCharAux (sep : Char) (cur : List Char) (acc : List (List Char)) :
    List Char → List (List Char)
  | [] => (cur.reverse :: acc).reverse
  | c :: t =>
    if c = sep then splitOnCharAux sep [] (cur.reverse :: acc) t
    else splitOnCharAux sep (c :: cur) acc t

/-- Python `s.split(sep)` on strings, single-character separator. -/
def splitOnChar (sep : Char) (s : String) : List String :=
  (splitOnCharAux sep [] [] s.data).map List.asString

/-- Python `text.count(c)` for a single-character pattern. -/
def countChar (c : Char) (s : String) : Nat := s.data.count c

/-- Python `str(b)` for a boolean. -/
def pyBool (b : Bool) : String := if b then "True" else "False"

/-- Python `str(x)` for an optional string (`None` prints as `"None"`). -/
def pyOptStr (o : Option String) : String := o.getD "None"

/-- First-occurrence deduplication (models iterating a Python `set`/`dict`
of strings where only membership and size are observed). -/
def dedupFirst (seen : List String) : List String → List String
  | [] => []
  | s :: t => if seen.contains s then dedupFirst seen t
              else s :: dedupFirst (s :: seen) t

/-- Bit length of a natural number (fuel-based so it reduces in the kernel). -/
def bitLenAux : Nat → Nat → Nat
  | 0, _ => 0
  | f + 1, n => if n = 0 then 0 else 1 + bitLenAux f (n / 2)

/-- Bit length of a natural number. -/
def bitLen (n : Nat) : Nat := bitLenAux n n

/-- Round a natural number to 53 significant bits, ties to even
(binary64 significand rounding). -/
def rne53 (m : Nat) : Nat :=
  let L := bitLen m
  if L ≤ 53 then m else
    let t := L - 53
    let q := m / 2 ^ t
    let r := m % 2 ^ t
    let half := 2 ^ (t - 1)
    let q2 := if half < r then q + 1 else if r < half then q else
              if q % 2 = 0 then q else q + 1
    q2 * 2 ^ t

/-- Python `int(s * 1.15)` for a non-negative integer `s`: the binary64
nearest double to `1.15` is `5179139571476070 / 2^52`; the product is
rounded to nearest-even and then truncated. -/
def pymul115Nat (s : Nat) : Nat := rne53 (s * 5179139571476070) / 2 ^ 52

/-- Python `int(s * 1.15)` for an integer `s` (truncation toward zero;
the float product is odd-symmetric in `s`). -/
def pymul115 (s : Int) : Int :=
  if s < 0 then -(pymul115Nat (-s).toNat : Int) else (pymul115Nat s.toNat : Int)

/-- Python `int(w * 1.5)` for a natural `w`: `w * 1.5` is exact in binary64,
so this is `w + w / 2`. -/
def py15 (w : Nat) : Nat := w + w / 2

/-- Does `needle` occur at a position of `l` reachable without crossing a
newline?  (Models the gap matched by `.` in a Python regex, which does not
match `\n`.) -/
def scanTillNl (needle : List Char) : List Char → Bool
  | [] => needle.isEmpty
  | c :: t => needle.isPrefixOf (c :: t) || (c ≠ '\n' && scanTillNl needle t)

/-- Existence of a match for the regex `first.*second` (equivalently the
lazy `first.*?second`) in `l`: an occurrence of `first` followed, with no
intervening newline, by an occurrence of `second`. -/
def seqMatch (first second : List Char) : List Char → Bool
  | [] => false
  | c :: t =>
    (first.isPrefixOf (c :: t) && scanTillNl second ((c :: t).drop first.length))
      || seqMatch first second t

/-- Embeds `seqMatch` on strings. -/
def strSeqMatch (first second hay : String) : Bool :=
  seqMatch first.data second.data hay.data

/-- Stable insert for a descending sort keyed on the second component
(equal keys keep their relative order, as in Python's stable `sorted`). -/
def insertDescByVal (x : String × Int) : List (String × Int) → List (String × Int)
  | [] => [x]
  | y :: t => if x.2 ≤ y.2 then y :: insertDescByVal x t else x :: y :: t

/-- Python `sorted(pairs, key=value, reverse=True)` (stable). -/
def sortDescByVal (l : List (String × Int)) : List (String × Int) :=
  l.foldl (fun acc x => insertDescByVal x acc) []

namespace App

/-! ## `app/classification/config.py` — static tables -/

/-- Embeds `Config.URGENCY_KEYWORDS`, in insertion order. -/
def URGENCY_KEYWORDS : List (String × Nat) :=
  [("emergency", 11), ("immediately", 10), ("critical", 10), ("breaking", 9),
   ("production down", 11), ("system down", 11), ("outage", 10), ("data loss", 10),
   ("security breach", 11), ("right now", 9), ("losing money", 10),
   ("urgent", 8), ("asap", 8), ("blocked", 8), ("blocker", 8), ("stuck", 7),
   ("time sensitive", 8), ("before eod", 7), ("by end of day", 7), ("today", 7),
   ("this afternoon", 7), ("within hours", 8), ("stop everything", 9),
   ("help", 6), ("need help", 6), ("deadline", 6), ("priority", 5),
   ("important", 5), ("action required", 6), ("attention needed", 6),
   ("please review", 5), ("waiting on", 6), ("response needed", 6),
   ("reminder", 4), ("follow up", 4), ("checking in", 3), ("update", 3),
   ("when you can", 2), ("no rush", 1)]

/-- Embeds `Config.LEGAL_KEYWORDS`. -/
def LEGAL_KEYWORDS : List String :=
  ["contract", "agreement", "legal", "lawyer", "suing", "court", "compliance"]

/-- Embeds `Config.FINANCE_KEYWORDS`. -/
def FINANCE_KEYWORDS : List String :=
  ["invoice", "payment", "bank", "transfer", "salary", "budget", "tax"]

/-- Embeds `Config.IT_KEYWORDS`. -/
def IT_KEYWORDS : List String :=
  ["access", "password", "login", "git", "repo", "server", "database", "api", "console"]

/-- Embeds `Config.HR_KEYWORDS`. -/
def HR_KEYWORDS : List String :=
  ["benefit", "offer", "hiring", "resume", "leave", "vacation"]

/-- Embeds `Config.MEETING_KEYWORDS`. -/
def MEETING_KEYWORDS : List String :=
  ["schedule", "calendar", "meet", "zoom", "hangout", "invite", "availability"]

/-- Embeds `Config.INVITATION_KEYWORDS`. -/
def INVITATION_KEYWORDS : List String :=
  ["invited you", "invitation", "join", "invited to", "collaborate"]

/-- Embeds `Config.COMPLAINT_KEYWORDS`. -/
def COMPLAINT_KEYWORDS : List String :=
  ["dissatisfied", "terrible", "bad service", "angry", "unhappy", "complaint",
   "fail", "broken", "disappointed", "frustrated", "upset", "unacceptable",
   "not working", "issue", "problem", "concern", "escalate"]

/-- Embeds `Config.HIGH_PRIORITY_PATTERNS`. -/
def HIGH_PRIORITY_PATTERNS : List String :=
  ["ceo", "cto", "cfo", "executive", "director", "vp",
   "board", "investor", "shareholder", "client",
   "revenue", "sales", "deal", "contract",
   "security", "breach", "vulnerability", "hack"]

/-- Embeds `Config.TIME_SENSITIVE_PATTERNS`. -/
def TIME_SENSITIVE_PATTERNS : List String :=
  ["due today", "due tomorrow", "expires", "expiring",
   "within 24 hours", "by tomorrow", "this afternoon",
   "before 5pm", "eod today", "end of business"]

/-- Embeds `Config.LOW_PRIORITY_INDICATORS`. -/
def LOW_PRIORITY_INDICATORS : List String :=
  ["fyi", "for your information", "heads up", "just so you know",
   "no action required", "optional", "when you have time",
   "no response needed", "read when convenient", "newsletter",
   "automated", "unsubscribe", "notification only"]

/-- Embeds `Config.RESPONSE_TIME_URGENT`. -/
def RESPONSE_TIME_URGENT : List String :=
  ["need by", "due by", "respond by", "reply by",
   "before", "deadline is", "expires", "time is running"]

/-! ## `app/classification/models.py` — data model -/

/-- Embeds `SenderType` enum. -/
inductive SenderType
  | vip | team | vendor | customer | spam | unknown
deriving DecidableEq, Repr

/-- The `value` string of a `SenderType` member. -/
def SenderType.value : SenderType → String
  | .vip => "vip"
  | .team => "team"
  | .vendor => "vendor"
  | .customer => "customer"
  | .spam => "spam"
  | .unknown => "unknown"

/-- Embeds `PriorityLevel` enum. -/
inductive PriorityLevel
  | high | medium | low | not_required
deriving DecidableEq, Repr

/-- The `value` string of a `PriorityLevel` member. -/
def PriorityLevel.value : PriorityLevel → String
  | .high => "high"
  | .medium => "medium"
  | .low => "low"
  | .not_required => "not_required"

/-- The Python enum member `name` of a `PriorityLevel`. -/
def PriorityLevel.name : PriorityLevel → String
  | .high => "HIGH"
  | .medium => "MEDIUM"
  | .low => "LOW"
  | .not_required => "NOT_REQUIRED"

/-- Embeds `EmailMetadata` dataclass of `app/classification/models.py`. -/
structure EmailMetadata where
  sender : String
  subject : String
  body : String
  date : Option Int
  recipients : List String := []
  has_attachments : Bool := false
deriving DecidableEq, Repr

/-- Embeds `ClassificationResult` dataclass (`confidence` in hundredths). -/
structure ClassificationResult where
  sender_type : SenderType
  sender_email : String
  sender_domain : String
  is_vip : Bool
  is_internal : Bool
  confidence : Int
  notes : String
deriving DecidableEq, Repr

/-- Embeds `IntentDetection` dataclass. -/
structure IntentDetection where
  intents : List String
  urgency_keywords : List String
  urgency_score : Int
  action_required : Bool
  question_detected : Bool
  is_follow_up : Bool
deriving DecidableEq, Repr

/-- Embeds `PriorityScore` dataclass (`factors` dict as an insertion-ordered list). -/
structure PriorityScore where
  score : Int
  priority_level : PriorityLevel
  factors : List (String × Int)
  reasoning : String
deriving DecidableEq, Repr

/-! ## `app/classification/intent.py` — `IntentScanner` -/

/-- Embeds `IntentScanner._has_near_deadline`: existence of a match for one of the
six deadline regexes in the (already lower-cased) text.  Alternations and
the optional `s` of `expires?` are expanded into literal alternatives; the
`.*?`/`.*` gaps are `seqMatch` (a gap never crosses a newline, as `.` does
not match `\n`). -/
def has_near_deadline (text : String) : Bool :=
  (strContains "due today" text || strContains "due tomorrow" text ||
     strContains "due this week" text) ||
  (strSeqMatch "deadline" "today" text || strSeqMatch "deadline" "tomorrow" text) ||
  (strContains "by today" text || strContains "by tomorrow" text ||
     strContains "by tonight" text || strContains "by eod" text) ||
  (strContains "expire today" text || strContains "expire tomorrow" text ||
     strContains "expire soon" text || strContains "expires today" text ||
     strContains "expires tomorrow" text || strContains "expires soon" text) ||
  (strSeqMatch "today" "deadline" text || strSeqMatch "tomorrow" "deadline" text) ||
  (strSeqMatch "within" "24 hour" text || strSeqMatch "within" "48 hour" text)

/-- The local `FOLLOW_UP_PHRASES` list of `IntentScanner.scan`. -/
def FOLLOW_UP_PHRASES : List String :=
  ["any update", "following up", "reminder", "checking in", "ping", "bumping"]

/-- The local `action_phrases` list of `IntentScanner.scan`. -/
def action_phrases : List String :=
  ["please", "could you", "can you", "would you",
   "action needed", "action required", "need you to",
   "expecting", "waiting for", "require", "must",
   "need", "requested", "pending", "approval needed"]

/-- The local `negative_words` list of `IntentScanner.scan`. -/
def negative_words : List String :=
  ["problem", "issue", "error", "fail", "broken", "not working",
   "stopped", "down", "lost", "missing", "wrong", "bug",
   "crash", "dead", "critical error", "severe"]

/-- The local `business_impact_words` list of `IntentScanner.scan`. -/
def business_impact_words : List String :=
  ["revenue", "customer", "client", "deal", "contract",
   "lawsuit", "legal action", "competitor", "market share",
   "losing", "risk", "threat"]

/-- The local `strong_action_verbs` list of `IntentScanner.scan`. -/
def strong_action_verbs : List String :=
  ["approve", "sign", "authorize", "confirm",
   "review immediately", "validate", "verify now"]

/-- Python `str.isupper()` over the repository's ASCII data: at least one
letter, and no lower-case letter. -/
def pyIsUpper (w : String) : Bool :=
  w.data.any (fun c => c.isAlpha) && w.data.all (fun c => !c.isLower)

/-- One urgency-keyword step of `IntentScanner.scan`: a subject hit adds
`int(weight * 1.5)` and records the keyword, otherwise a body-or-subject
text hit adds `weight` and records the keyword. -/
def urgencyKeywordStep (subject_lower text : String) (acc : Int × List String)
    (kw : String × Nat) : Int × List String :=
  if strContains kw.1 subject_lower then
    (acc.1 + (py15 kw.2 : Int), acc.2 ++ [kw.1])
  else if strContains kw.1 text then
    (acc.1 + (kw.2 : Int), acc.2 ++ [kw.1])
  else acc

/-- Embeds `IntentScanner.scan` before the final clamp: the `urgency_score` field
holds the raw accumulated score.  Mirrors `app/classification/intent.py`
step by step; the steps that only touch other fields are grouped after the
score/marker accumulation, which is sound because the function is pure. -/
def scanPre (subject body : String) : IntentDetection :=
  let text := lowerStr (subject ++ " " ++ body)
  let subject_lower := lowerStr subject
  let is_follow_up := FOLLOW_UP_PHRASES.any (fun p => strContains p text)
  -- low-priority indicators: subtract 5 per hit, record one counter marker
  let low_pri_found : Nat := (LOW_PRIORITY_INDICATORS.filter
      (fun i => strContains i text)).length
  let acc0 : Int × List String :=
    if 0 < low_pri_found then
      (-(5 * (low_pri_found : Int)), [s!"low_priority_indicator:{low_pri_found}"])
    else (0, [])
  -- urgency keywords, subject hits weighted by int(weight * 1.5)
  let acc1 := URGENCY_KEYWORDS.foldl (urgencyKeywordStep subject_lower text) acc0
  -- response-time urgency: +7 per pattern
  let acc2 := RESPONSE_TIME_URGENT.foldl (fun acc p =>
      if strContains p text then (acc.1 + 7, acc.2 ++ [s!"response_deadline:{p}"])
      else acc) acc1
  -- high-priority patterns: +5 per pattern
  let acc3 := HIGH_PRIORITY_PATTERNS.foldl (fun acc p =>
      if strContains p text then (acc.1 + 5, acc.2 ++ [s!"high_priority:{p}"])
      else acc) acc2
  -- time-sensitive patterns: +8 per pattern
  let acc4 := TIME_SENSITIVE_PATTERNS.foldl (fun acc p =>
      if strContains p text then (acc.1 + 8, acc.2 ++ [s!"time_sensitive:{p}"])
      else acc) acc3
  -- near deadline: +7
  let acc5 := if has_near_deadline text then (acc4.1 + 7, acc4.2 ++ ["near_deadline"])
              else acc4
  -- action / question detection
  let action_required := action_phrases.any (fun p => strContains p text)
  let question_detected := strContains "?" text ||
    (["who", "what", "where", "when", "why", "how", "which"].any
      (fun w => strContains (w ++ " ") text || strContains (" " ++ w) text))
  let question_count := countChar '?' text
  let acc6 := if 2 < question_count then (acc5.1 + 3, acc5.2) else acc5
  -- domain intents
  let intents0 : List String := []
  let legalHit := LEGAL_KEYWORDS.any (fun w => strContains w text)
  let intents1 := if legalHit then intents0 ++ ["legal"] else intents0
  let acc7 := if legalHit then (acc6.1 + 3, acc6.2) else acc6
  let financeHit := FINANCE_KEYWORDS.any (fun w => strContains w text)
  let intents2 := if financeHit then intents1 ++ ["finance"] else intents1
  let acc8 := if financeHit then (acc7.1 + 3, acc7.2) else acc7
  let intents3 := if IT_KEYWORDS.any (fun w => strContains w text) then
      intents2 ++ ["it"] else intents2
  let intents4 := if HR_KEYWORDS.any (fun w => strContains w text) then
      intents3 ++ ["hr"] else intents3
  let intents5 := if MEETING_KEYWORDS.any (fun w => strContains w text) then
      intents4 ++ ["meeting"] else intents4
  let intents6 := if INVITATION_KEYWORDS.any (fun w => strContains w text) then
      intents5 ++ ["invitation"] else intents5
  -- complaints: two keyword hits, or the literal word
  let complaint_count : Nat := (COMPLAINT_KEYWORDS.filter
      (fun w => strContains w text)).length
  let complaintHit := 2 ≤ complaint_count || strContains "complaint" text
  let intents7 := if complaintHit then intents6 ++ ["complaint"] else intents6
  let acc9 := if complaintHit then (acc8.1 + 10, acc8.2) else acc8
  -- emotional intensity: more than two exclamation marks
  let exclamation_count := countChar '!' text
  let acc10 := if 2 < exclamation_count then
      (acc9.1 + 5, acc9.2 ++ ["emotional_intensity"]) else acc9
  -- all-caps words (the text was lower-cased, so this never fires)
  let caps_words := (pySplit text).filter (fun w => pyIsUpper w && 3 < w.length)
  let acc11 := if 3 < caps_words.length then
      (acc10.1 + 4, acc10.2 ++ ["all_caps_urgency"]) else acc10
  -- negative sentiment
  let negative_count : Nat := (negative_words.filter
      (fun w => strContains w text)).length
  let acc12 :=
    if 2 ≤ negative_count then
      (acc11.1 + 6, acc11.2 ++ [s!"negative_sentiment:{negative_count}"])
    else if negative_count = 1 then (acc11.1 + 3, acc11.2)
    else acc11
  -- business impact
  let business_count : Nat := (business_impact_words.filter
      (fun w => strContains w text)).length
  let acc13 := if 2 ≤ business_count then
      (acc12.1 + 8, acc12.2 ++ [s!"business_impact:{business_count}"]) else acc12
  -- strong action verbs
  let acc14 := if strong_action_verbs.any (fun v => strContains v text) then
      (acc13.1 + 5, acc13.2 ++ ["strong_action_required"]) else acc13
  { intents := intents7
    urgency_keywords := acc14.2
    urgency_score := acc14.1
    action_required := action_required
    question_detected := question_detected
    is_follow_up := is_follow_up }

/-- Embeds `IntentScanner.scan`: `None` inputs fall back to `""`
(`subject = subject or ""`), and the accumulated urgency score is clamped
to `[0, 35]` (`max(0, min(urgency_score, 35))`). -/
def scan (subject? body? : Option String) : IntentDetection :=
  let r := scanPre (subject?.getD "") (body?.getD "")
  { r with urgency_score := max 0 (min r.urgency_score 35) }

/-! ## `app/classification/priority.py` — `PriorityScorer` -/

/-- Embeds `PriorityScorer._score_sender` (0–40). -/
def score_sender (classification : ClassificationResult) : Int :=
  if classification.is_vip then 40 else
  match classification.sender_type with
  | .vip => 40
  | .team => 30
  | .customer => 25
  | .vendor => 15
  | .unknown => 5
  | .spam => 0

/-- Embeds `PriorityScorer._score_urgency` (0–35). -/
def score_urgency (intent : IntentDetection) : Int := min intent.urgency_score 35

/-- Embeds `PriorityScorer._score_action` (0–15). -/
def score_action (intent : IntentDetection) : Int :=
  let s : Int := 0
  let s := if intent.action_required then s + 8 else s
  let s := if intent.question_detected then s + 4 else s
  let s := if intent.action_required && intent.question_detected then s + 3 else s
  let s := if intent.is_follow_up then s + 3 else s
  min s 15

/-- Embeds `PriorityScorer._score_age` (0–10): thresholds in seconds against the
injected clock `now`; a missing date scores 0. -/
def score_age (now : Int) (email_date : Option Int) : Int :=
  match email_date with
  | none => 0
  | some d =>
    let age := now - d
    if age < 3600 then 10
    else if age < 14400 then 8
    else if age < 86400 then 5
    else if age < 259200 then 2
    else 0

/-- Embeds `PriorityScorer._score_thread` (0–15). -/
def score_thread (metadata : EmailMetadata) : Int :=
  let subject_lower := lowerStr metadata.subject
  let s : Int := 0
  let s := if pyStartsWith subject_lower "re:" then s + 5 else s
  let s := if pyStartsWith subject_lower "fwd:" then s + 1 else s
  let s := if metadata.recipients ≠ [] then s + 3 else s
  let s :=
    if metadata.has_attachments then
      let s := s + 4
      if ["attached", "document", "file", "contract", "agreement", "invoice"].any
          (fun w => strContains w subject_lower) then s + 2 else s
    else s
  let s := if 50 < metadata.subject.length then s + 1 else s
  min s 15

/-- Embeds `PriorityScorer._score_category` (0–20). -/
def score_category (intent : IntentDetection) : Int :=
  let s : Int := 0
  let s :=
    if intent.intents.contains "complaint" then
      let s := s + 18
      if 10 < intent.urgency_score then s + 2 else s
    else s
  let s := if intent.intents.contains "legal" then s + 12 else s
  let s := if intent.intents.contains "finance" then s + 10 else s
  let s :=
    if intent.intents.contains "it" then
      let s := s + 8
      if 8 < intent.urgency_score then s + 4 else s
    else s
  let s := if intent.intents.contains "invitation" then s + 8 else s
  let s := if intent.intents.contains "hr" then s + 6 else s
  let s :=
    if intent.intents.contains "meeting" then
      let s := s + 5
      if ["today", "tomorrow", "asap"].any
          (fun kw => intent.urgency_keywords.contains kw) then s + 5 else s
    else s
  min s 20

/-- Embeds `PriorityScorer._score_business_context` (−5 to 10). -/
def score_business_context (metadata : EmailMetadata) (_intent : IntentDetection) : Int :=
  let text := lowerStr (metadata.subject ++ " " ++ metadata.body)
  let s : Int := 0
  let s := if ["newsletter", "unsubscribe", "automated", "no-reply"].any
      (fun w => strContains w text) then s - 5 else s
  let s := if ["revenue", "contract", "deal", "legal", "lawsuit",
      "customer complaint", "data breach", "security incident"].any
      (fun w => strContains w text) then s + 8 else s
  let s := if ["deadline", "by eod", "by end of", "expires", "due date"].any
      (fun p => strContains p text) then s + 5 else s
  let s := if 20 < metadata.recipients.length then s - 3 else s
  max (-5) (min s 10)

/-- Embeds `PriorityScorer._determine_level`: HIGH ≥ 75, MEDIUM ≥ 50, LOW ≥ 30,
else NOT_REQUIRED. -/
def determine_level (score : Int) : PriorityLevel :=
  if 75 ≤ score then .high
  else if 50 ≤ score then .medium
  else if 30 ≤ score then .low
  else .not_required

/-- Embeds `PriorityScorer._factor_to_reason`. -/
def factor_to_reason (factor_name : String) (score : Int) : String :=
  if factor_name = "sender_importance" then s!"Important sender (+{score})"
  else if factor_name = "urgency_keywords" then s!"Urgent keywords (+{score})"
  else if factor_name = "action_required" then s!"Action needed (+{score})"
  else if factor_name = "email_age" then s!"Recent email (+{score})"
  else if factor_name = "thread_context" then s!"Active thread (+{score})"
  else if factor_name = "special_category" then s!"Priority category (+{score})"
  else if factor_name = "business_impact" then s!"Business impact (+{score})"
  else ""

/-- Embeds `PriorityScorer._generate_reasoning`. -/
def generate_reasoning (score : Int) (factors : List (String × Int))
    (level : PriorityLevel) : String :=
  let sorted_factors := sortDescByVal factors
  let reasons := (sorted_factors.filterMap (fun p =>
      if 0 < p.2 then
        let r := factor_to_reason p.1 p.2
        if r ≠ "" then some r else none
      else none))
  let indicator :=
    if level = .high then "🔴 HIGH"
    else if level = .medium then "🟡 MEDIUM"
    else if level = .low then "🟢 LOW"
    else "⚪ NOT REQUIRED"
  let reasoning := s!"{indicator} ({score}/150)"
  if reasons ≠ [] then
    reasoning ++ " | " ++ String.intercalate ", " (reasons.take 4)
  else reasoning

/-- Embeds `PriorityScorer.calculate_score`: the seven factors, the urgency
overrides at 18 and 25, the 15% compound boost for three or more
high-priority signals, and the final clamp to `[0, 150]`. -/
def calculate_score (now : Int) (metadata : EmailMetadata)
    (classification : ClassificationResult) (intent : IntentDetection) :
    PriorityScore :=
  let sender_score := score_sender classification
  let sender_score := if intent.intents.contains "complaint" then
      max sender_score 25 else sender_score
  let sender_score :=
    if intent.urgency_keywords = [] && !intent.action_required &&
        !(intent.intents.contains "complaint") &&
        !(intent.intents.contains "invitation") then
      min sender_score 20
    else sender_score
  let urgency_score := score_urgency intent
  let action_score := score_action intent
  let age_score := score_age now metadata.date
  let thread_score := score_thread metadata
  let category_score := score_category intent
  let business_score := score_business_context metadata intent
  let factors :=
    [("sender_importance", sender_score), ("urgency_keywords", urgency_score),
     ("action_required", action_score), ("email_age", age_score),
     ("thread_context", thread_score), ("special_category", category_score),
     ("business_impact", business_score)]
  let score := sender_score + urgency_score + action_score + age_score +
      thread_score + category_score + business_score
  let score := if 18 ≤ intent.urgency_score then max score 50 else score
  let score := if 25 ≤ intent.urgency_score then max score 70 else score
  let signals : Nat :=
    (if 15 ≤ intent.urgency_score then 1 else 0) +
    (if intent.action_required && intent.question_detected then 1 else 0) +
    (if 30 ≤ sender_score then 1 else 0) +
    (if intent.intents.contains "complaint" || intent.intents.contains "legal"
        then 1 else 0) +
    (if 15 ≤ category_score then 1 else 0)
  let score := if 3 ≤ signals then pymul115 score else score
  let score := max 0 (min 150 score)
  let priority_level := determine_level score
  let reasoning := generate_reasoning score factors priority_level
  { score := score
    priority_level := priority_level
    factors := factors
    reasoning := reasoning }

end App

namespace Llm

/-! ## `app/llm/router.py` and the PII scrubber it applies -/

/-- Group a character stream into maximal digit runs for the scrubber:
`some run` entries are maximal runs of ASCII digits, `none`-tagged entries
are single non-digit characters. -/
def digitRuns : List Char → List (List Char × Bool)
  | [] => []
  | c :: t =>
    match digitRuns t with
    | (run, true) :: rest =>
      if c.isDigit then ((c :: run, true) :: rest)
      else ([c], false) :: (run, true) :: rest
    | rest =>
      if c.isDigit then ([c], true) :: rest
      else ([c], false) :: rest

/-- Modelled from the spec: `PIIDetector.anonymize_text` of the absent
module `app/guardrails/pii_detector.py`.  The spec (§4.5) has the detector
scan for credit-card/account-number patterns and replace each PII
substring by a canonical placeholder, idempotently; this model replaces
every maximal run of 13–19 ASCII digits (the credit-card/account shape) by
the placeholder `[REDACTED_NUMBER]`.  The placeholder contains no digits,
so the function is idempotent as the spec requires. -/
def anonymize_text (s : String) : String :=
  ⟨(digitRuns s.data).foldr (fun run acc =>
      if run.2 && 13 ≤ run.1.length && run.1.length ≤ 19 then
        "[REDACTED_NUMBER]".data ++ acc
      else run.1 ++ acc) []⟩

/-- Embeds `app/llm/router.py::call_llm`.  The remote calls are the capability
parameters `gem` (`call_gemini`; `none` models a raised `ClientError` or
any other exception) and `oll` (`call_ollama`).  The prompt is scrubbed
with `anonymize_text` before either remote function is consulted; the
diagnostic `print` of the source has no effect on the result. -/
def call_llm (gem : String → Option String) (oll : String → String)
    (prompt : String) (_task : String) : String :=
  let safe_prompt := anonymize_text prompt
  match gem safe_prompt with
  | some t => t
  | none => oll safe_prompt

end Llm

namespace Agent

/-! ## Data model of the orchestrator (`email_agent.py`)

The orchestrator's own `models` module is absent from the sources; the
record shapes below are reconstructed from every use site in
`email_agent.py`, `drafting/reply_drafter.py`,
`drafting/clarification_handler.py` and `edge_cases/reply_all_handler.py`,
with field inventories cross-checked against the spec's §3 data model.
Fields the pipeline assigns before first reading them carry their Python
construction defaults. -/

/-- Embeds `ProcessingStatus` enum of the absent `models` module (spec §3:
`status ∈ {PENDING, PROCESSING, BLOCKED, DRAFT_READY, APPROVAL_REQUIRED}`). -/
inductive ProcessingStatus
  | pending | processing | blocked | draft_ready | approval_required
deriving DecidableEq, Repr

/-- Embeds `EmailCategory` enum; only `ACTION`, `legal` and `finance` are
inspected by the embedded code, the other members are carried for the
`value` strings (spec §4.4). -/
inductive EmailCategory
  | action | informational | spam | meeting | legal | finance | hr | it | other
deriving DecidableEq, Repr

/-- The `value` string of an `EmailCategory` member. -/
def EmailCategory.value : EmailCategory → String
  | .action => "action"
  | .informational => "informational"
  | .spam => "spam"
  | .meeting => "meeting"
  | .legal => "legal"
  | .finance => "finance"
  | .hr => "hr"
  | .it => "it"
  | .other => "other"

/-- Embeds `EmailMetadata` of the absent `models` module (spec §3). -/
structure EmailMetadata where
  message_id : String
  thread_id : String
  sender : String
  subject : String
  body : String
  recipients : List String := []
  cc : List String := []
  date : Option Int := none
  has_attachments : Bool := false
deriving DecidableEq, Repr

/-- Sender classification as consumed by the orchestrator
(`sender_type` carried as its `value` string, which is all the
orchestrator reads). -/
structure Classification where
  sender_type : String
  is_vip : Bool
  is_internal : Bool
  notes : String
deriving DecidableEq, Repr

/-- Intent record of the absent `models` module, as consumed by the
orchestrator, the drafter and the clarification handler
(`confidence` in hundredths). -/
structure Intent where
  primary_intent : Option String := none
  keywords_detected : List String := []
  urgency_keywords : List String := []
  urgency_score : Int := 0
  action_required : Bool := false
  question_detected : Bool := false
  is_follow_up : Bool := false
  intents : List String := []
  confidence : Int := 100
deriving DecidableEq, Repr

/-- Priority record as consumed by the orchestrator. -/
structure Priority where
  score : Int
  priority_level : App.PriorityLevel
  reasoning : String
deriving DecidableEq, Repr

/-- The `details` payload of the reply-all risk flag
(`analyze_reply_all_risk`'s `details` dictionary); other flags leave it
empty. -/
structure RiskDetails where
  total_recipients : Nat := 0
  external_count : Nat := 0
  internal_count : Nat := 0
  external_addresses : List String := []
  risk_factors : List String := []
deriving DecidableEq, Repr

/-- Embeds `SecurityFlag` of the absent `models` module (spec §3). -/
structure SecurityFlag where
  flag_type : String
  severity : String
  description : String
  details : RiskDetails := {}
  blocks_sending : Bool
deriving DecidableEq, Repr

/-- Embeds `DraftReply` as constructed by `ReplyDrafter.draft_reply`. -/
structure DraftReply where
  subject : String
  body : String
  recipients : List String
  cc : List String
  tone : String
  preserves_tone : Bool
  created_at : Int
  requires_approval : Bool
  draft_id : Option String := none
deriving DecidableEq, Repr

/-- Embeds `ClarificationReason` enum of the absent `models` module. -/
inductive ClarificationReason
  | ambiguous_recipients | unclear_intent | missing_information
deriving DecidableEq, Repr

/-- The `context` dictionary built by `ClarificationHandler._build_context`. -/
structure ClarificationContext where
  message_id : String
  thread_id : String
  subject : String
  sender : String
  date : Option Int
  original_recipients : List String
  cc : List String
  priority_score : Int
  category : String
  intent_confidence : Int
deriving DecidableEq, Repr

/-- Embeds `ClarificationRequest` of the absent `models` module. -/
structure ClarificationRequest where
  email_id : String
  subject : String
  reasons : List ClarificationReason
  questions : List String
  context : ClarificationContext
deriving DecidableEq, Repr

/-- Embeds `ProcessedEmail`: the per-message ownership root mutated by the
pipeline stages (spec §3).  Defaults are the Python construction
defaults; `category` starts at `other` and is assigned by the core stage
before any read. -/
structure ProcessedEmail where
  metadata : EmailMetadata
  classification : Option Classification := none
  intent : Option Intent := none
  priority : Option Priority := none
  category : EmailCategory := .other
  is_spam : Bool := false
  is_blocked : Bool := false
  requires_reply : Bool := false
  has_pii : Bool := false
  needs_clarification : Bool := false
  draft_reply : Option DraftReply := none
  security_flags : List SecurityFlag := []
  processing_notes : List String := []
  clarification_request : Option ClarificationRequest := none
  follow_ups : List String := []
  status : ProcessingStatus := .pending
  received_at : Option Int := none
deriving DecidableEq, Repr

/-! ## `edge_cases/reply_all_handler.py` — `ReplyAllHandler`

The handler's constructor captures `Config.ALLOWED_DOMAINS` from the
absent top-level `config` module; the functions here take that list as
their `allowed` parameter.  Its constants are
`max_recipients_warning = 5` and `max_external_recipients = 3`. -/

/-- Embeds `ReplyAllHandler._extract_domain`. -/
def extract_domain (email : String) : String :=
  if strContains "@" email then lowerStr ((splitOnChar '@' email).getD 1 "")
  else ""

/-- Embeds `ReplyAllHandler._is_internal_domain`. -/
def is_internal_domain (allowed : List String) (domain : String) : Bool :=
  if domain = "" then false else allowed.contains domain

/-- Embeds `ReplyAllHandler._get_external_recipients`; the Python `set` is
modelled as first-occurrence deduplication (only size, membership and a
5-element sample of it are observed). -/
def get_external_recipients (allowed recipients : List String) : List String :=
  dedupFirst [] (recipients.filter
    (fun r => !is_internal_domain allowed (extract_domain r)))

/-- Embeds `ReplyAllHandler._get_internal_recipients`. -/
def get_internal_recipients (allowed recipients : List String) : List String :=
  dedupFirst [] (recipients.filter
    (fun r => is_internal_domain allowed (extract_domain r)))

/-- Embeds `ReplyAllHandler._has_mixed_internal_external`: the source's
early-exit loop returns true exactly when the list contains an internal
and an external recipient. -/
def has_mixed_internal_external (allowed recipients : List String) : Bool :=
  recipients.any (fun r => is_internal_domain allowed (extract_domain r)) &&
  recipients.any (fun r => !is_internal_domain allowed (extract_domain r))

/-- Embeds `ReplyAllHandler._get_recommendation`. -/
def get_recommendation (risk_level : String) (external_count : Nat) : String :=
  if risk_level = "critical" then
    "BLOCK: Critical risk detected. Do not send without explicit approval."
  else if risk_level = "high" then
    "WARNING: High risk. Verify all recipients are intended before sending."
  else if risk_level = "medium" then
    s!"CAUTION: {external_count} external recipient(s). Confirm reply-all is necessary."
  else
    "OK: No significant reply-all risks detected."

/-- Result dictionary of `ReplyAllHandler.analyze_reply_all_risk`
(the no-draft early return carries no `recommendation` key; it is
modelled as the empty string, which `block_if_risky` never reads). -/
structure RiskAnalysis where
  has_risk : Bool
  risk_level : String
  details : RiskDetails
  recommendation : String := ""
deriving DecidableEq, Repr

/-- Embeds `ReplyAllHandler.analyze_reply_all_risk`: the five risk factors,
evaluated in source order over the draft's recipient lists. -/
def analyze_reply_all_risk (allowed : List String) (email : ProcessedEmail) :
    RiskAnalysis :=
  match email.draft_reply with
  | none => { has_risk := false, risk_level := "none", details := {} }
  | some draft =>
    let all_recipients := draft.recipients ++ draft.cc
    let external_recipients := get_external_recipients allowed all_recipients
    let internal_recipients := get_internal_recipients allowed all_recipients
    let total := all_recipients.length
    let extn := external_recipients.length
    let intn := internal_recipients.length
    let catv := email.category.value
    -- running (risk_level, risk_factors) accumulator, factors in source order
    let acc0 : String × List String := ("none", [])
    -- Factor 1: total recipient count
    let acc1 :=
      if 10 < total then
        ("high", acc0.2 ++ [s!"Very large recipient list: {total}"])
      else if 5 < total then
        (if acc0.1 = "none" then "medium" else acc0.1,
         acc0.2 ++ [s!"Large recipient list: {total}"])
      else acc0
    -- Factor 2: external recipients
    let acc2 :=
      if 3 < extn then
        ("high", acc1.2 ++ [s!"Many external recipients: {extn}"])
      else if 0 < extn then
        (if acc1.1 = "none" then "medium" else acc1.1,
         acc1.2 ++ [s!"External recipients present: {extn}"])
      else acc1
    -- Factor 3: mixed audiences
    let acc3 :=
      if 0 < intn && 0 < extn then
        (if 2 < extn then "high" else "medium",
         acc2.2 ++ ["Mixed internal and external recipients"])
      else acc2
    -- Factor 4: sensitive categories
    let acc4 :=
      if (catv = "legal" || catv = "finance") && 0 < extn then
        ("high",
         acc3.2 ++ [s!"Sensitive category ({catv}) with external recipients"])
      else acc3
    -- Factor 5: PII flags (one update per matching flag, as in the loop)
    let acc5 := email.security_flags.foldl (fun acc flag =>
        if flag.flag_type = "pii_detected" && 0 < extn then
          ("critical", acc.2 ++ ["PII detected with external recipients"])
        else acc) acc4
    { has_risk := acc5.1 ≠ "none"
      risk_level := acc5.1
      details :=
        { total_recipients := total
          external_count := extn
          internal_count := intn
          external_addresses := external_recipients.take 5
          risk_factors := acc5.2 }
      recommendation := get_recommendation acc5.1 extn }

/-- Embeds `ReplyAllHandler.block_if_risky`. -/
def block_if_risky (allowed : List String) (email : ProcessedEmail) :
    ProcessedEmail :=
  let analysis := analyze_reply_all_risk allowed email
  if analysis.risk_level = "high" || analysis.risk_level = "critical" then
    let flag : SecurityFlag :=
      { flag_type := "reply_all_risk"
        severity := analysis.risk_level
        description := "Reply-all risk detected"
        details := analysis.details
        blocks_sending := true }
    { email with
      security_flags := email.security_flags ++ [flag]
      is_blocked := true
      draft_reply := email.draft_reply.map
        (fun d => { d with requires_approval := true }) }
  else if analysis.risk_level = "medium" then
    let flag : SecurityFlag :=
      { flag_type := "reply_all_warning"
        severity := "medium"
        description := "Reply-all warning - approval recommended"
        details := analysis.details
        blocks_sending := false }
    { email with
      security_flags := email.security_flags ++ [flag]
      draft_reply := email.draft_reply.map
        (fun d => { d with requires_approval := true }) }
  else email

/-! ## `drafting/clarification_handler.py` — `ClarificationHandler`

Constructor constants: `min_confidence_threshold = 0.6` (here `60`
hundredths) and `max_recipients_without_confirmation = 5` (never read). -/

namespace ClarificationHandler

/-- Embeds `ClarificationHandler._is_ambiguous_email`. -/
def is_ambiguous_email (email_address : String) : Bool :=
  let email_lower := lowerStr email_address
  ["info@", "contact@", "support@", "help@",
   "sales@", "admin@", "team@", "noreply@"].any
    (fun p => strContains p email_lower)

/-- Embeds `ClarificationHandler._has_ambiguous_recipients`. -/
def has_ambiguous_recipients (email : ProcessedEmail) : Bool :=
  match email.draft_reply with
  | none => false
  | some draft =>
    let recipients := draft.recipients
    if recipients = [] then true
    else
      let original_recipients := email.metadata.recipients ++ email.metadata.cc
      if 1 < original_recipients.length && recipients.length = 1 &&
          !(recipients.contains email.metadata.sender) then true
      else recipients.any is_ambiguous_email

/-- Embeds `ClarificationHandler._has_unclear_intent` (threshold in hundredths). -/
def has_unclear_intent (email : ProcessedEmail) : Bool :=
  match email.intent with
  | none => true
  | some intent =>
    if intent.confidence < 60 then true
    else if intent.primary_intent = some "unknown" ||
        intent.primary_intent = some "unclear" then true
    else if 3 < intent.intents.length then true
    else false

/-- Embeds `ClarificationHandler._missing_critical_info`. -/
def missing_critical_info (email : ProcessedEmail) : Bool :=
  match email.draft_reply with
  | none => false
  | some draft =>
    let actionGap :=
      match email.intent with
      | some intent =>
        intent.action_required &&
          !(["will", "can", "schedule", "send", "provide", "confirm"].any
            (fun w => strContains w (lowerStr draft.body)))
      | none => false
    if actionGap then true
    else
      match email.intent with
      | some intent =>
        intent.question_detected && (lowerStr draft.body).length < 50
      | none => false

/-- Embeds `ClarificationHandler.needs_clarification`. -/
def needs_clarification (email : ProcessedEmail) : Bool :=
  match email.draft_reply with
  | none => false
  | some _ =>
    has_ambiguous_recipients email || has_unclear_intent email ||
      missing_critical_info email

/-- Embeds `ClarificationHandler._generate_recipient_questions`. -/
def generate_recipient_questions (email : ProcessedEmail) : List String :=
  let subj := email.metadata.subject
  let sndr := email.metadata.sender
  let q1 : List String :=
    match email.draft_reply with
    | none =>
      [s!"Who should receive the reply for \x27{subj}\x27? Original sender: {sndr}"]
    | some draft =>
      if draft.recipients = [] then
        [s!"Who should receive the reply for \x27{subj}\x27? Original sender: {sndr}"]
      else if draft.recipients.any is_ambiguous_email then
        let first := draft.recipients.getD 0 ""
        [s!"The recipient \x27{first}\x27 appears to be a generic address. " ++
         "Should we send to this address or to a specific person?"]
      else []
  let q2 : List String :=
    if email.metadata.cc ≠ [] then
      let ccList := String.intercalate ", " (email.metadata.cc.take 3)
      [s!"Should we include CC recipients in the reply? CC list: {ccList}"]
    else []
  q1 ++ q2

/-- Embeds `ClarificationHandler._generate_intent_questions` (the `:.0%` percent
formatting of the float confidence becomes the hundredths value followed
by `%`). -/
def generate_intent_questions (email : ProcessedEmail) : List String :=
  match email.intent with
  | none => []
  | some intent =>
    let conf := intent.confidence
    let topics := String.intercalate ", " (intent.intents.take 3)
    (if intent.confidence < 60 then
      [s!"The intent of this email is unclear (confidence: {conf}%). " ++
       "What action should we take?"]
     else []) ++
    (if 3 < intent.intents.length then
      [s!"This email seems to cover multiple topics: {topics}. " ++
       "Which should we prioritize in the response?"]
     else [])

/-- Embeds `ClarificationHandler._generate_missing_info_questions`. -/
def generate_missing_info_questions (email : ProcessedEmail) : List String :=
  (match email.intent with
   | some intent =>
     if intent.action_required then
       ["This email requires an action, but we need more context. " ++
        "What specific action should be taken?"]
     else []
   | none => []) ++
  (match email.intent with
   | some intent =>
     if intent.question_detected then
       ["This email contains a question. Do you have the information needed to answer it?"]
     else []
   | none => [])

/-- Embeds `ClarificationHandler._build_context` (the `date.isoformat()` string
is carried as the instant itself). -/
def build_context (email : ProcessedEmail) : ClarificationContext :=
  { message_id := email.metadata.message_id
    thread_id := email.metadata.thread_id
    subject := email.metadata.subject
    sender := email.metadata.sender
    date := email.metadata.date
    original_recipients := email.metadata.recipients
    cc := email.metadata.cc
    priority_score := (email.priority.map (·.score)).getD 0
    category := email.category.value
    intent_confidence := (email.intent.map (·.confidence)).getD 0 }

/-- Embeds `ClarificationHandler.generate_clarification_request`. -/
def generate_clarification_request (email : ProcessedEmail) :
    ClarificationRequest :=
  let (reasons1, questions1) :=
    if has_ambiguous_recipients email then
      ([ClarificationReason.ambiguous_recipients], generate_recipient_questions email)
    else ([], [])
  let (reasons2, questions2) :=
    if has_unclear_intent email then
      ([ClarificationReason.unclear_intent], generate_intent_questions email)
    else ([], [])
  let (reasons3, questions3) :=
    if missing_critical_info email then
      ([ClarificationReason.missing_information], generate_missing_info_questions email)
    else ([], [])
  { email_id := email.metadata.message_id
    subject := email.metadata.subject
    reasons := reasons1 ++ reasons2 ++ reasons3
    questions := questions1 ++ questions2 ++ questions3
    context := build_context email }

end ClarificationHandler

/-! ## `drafting/reply_drafter.py` — `ReplyDrafter`

`self.use_gemini` and the remote Gemini call are capability parameters:
`remote ctx` is the `text` attribute of `generate_content(ctx)`, with
`none` modelling a raised exception or an absent text. -/

namespace ReplyDrafter

/-- Embeds `ReplyDrafter._build_context`: the minimal drafting prompt.
`None` values print as Python prints them. -/
def build_context (metadata : EmailMetadata) (intent : Intent) : String :=
  let subj := metadata.subject
  let sndr := metadata.sender
  let pint := pyOptStr intent.primary_intent
  let act := pyBool intent.action_required
  "Write a short, professional email reply.\n\n" ++
  s!"Original subject: {subj}\n" ++
  s!"Sender: {sndr}\n" ++
  s!"Intent: {pint}\n" ++
  s!"Action required: {act}\n\n" ++
  "Reply rules:\n" ++
  "- Be polite and professional\n" ++
  "- Acknowledge the email\n" ++
  "- Do not promise actions\n" ++
  "- Keep it to 2–3 sentences\n\n" ++
  "Draft reply:"

/-- Embeds `ReplyDrafter._generate_with_gemini`: `none` without a client;
otherwise the remote answer, stripped, with empty or missing text giving
`none`. -/
def generate_with_gemini (remote : String → Option String)
    (hasClient : Bool) (context : String) : Option String :=
  if !hasClient then none
  else
    match remote context with
    | none => none
    | some t => if t = "" then none else some (pyStrip t)

/-- Embeds `ReplyDrafter._generate_template_response`. -/
def generate_template_response (_metadata : EmailMetadata) (intent : Intent) :
    String :=
  let key :=
    match intent.primary_intent with
    | some p =>
      if p = "question" || p = "request" || p = "meeting" ||
          p = "complaint" || p = "default" then p else "default"
    | none => "default"
  if key = "question" then
    "Thank you for your email. I’ve received your question and will " ++
    "review it shortly. I’ll get back to you with more details.\n\n" ++
    "Best regards"
  else if key = "request" then
    "Thank you for reaching out. I’ve noted your request and will " ++
    "review it shortly. I’ll follow up soon.\n\n" ++
    "Best regards"
  else if key = "meeting" then
    "Thank you for your message. I’ll check my availability and " ++
    "get back to you shortly.\n\n" ++
    "Best regards"
  else if key = "complaint" then
    "Thank you for bringing this to my attention. I understand your " ++
    "concerns and will look into this matter.\n\n" ++
    "Best regards"
  else
    "Thank you for your email. I’ve received your message and will " ++
    "respond accordingly.\n\n" ++
    "Best regards"

/-- Embeds `ReplyDrafter._create_reply_subject`. -/
def create_reply_subject (original_subject : String) : String :=
  if pyStartsWith (lowerStr original_subject) "re:" then original_subject
  else "Re: " ++ original_subject

/-- Embeds `ReplyDrafter.draft_reply`: Gemini first (when enabled), template
fallback always, `none` only if even the template were empty. -/
def draft_reply (use_gemini : Bool) (remote : String → Option String)
    (now : Int) (metadata : EmailMetadata) (intent : Intent) :
    Option DraftReply :=
  let draft_body : Option String :=
    if use_gemini then
      generate_with_gemini remote use_gemini (build_context metadata intent)
    else none
  let body : String :=
    match draft_body with
    | some b => if b = "" then generate_template_response metadata intent else b
    | none => generate_template_response metadata intent
  if body = "" then none
  else some
    { subject := create_reply_subject metadata.subject
      body := body
      recipients := [metadata.sender]
      cc := []
      tone := "professional"
      preserves_tone := true
      created_at := now
      requires_approval := true }

end ReplyDrafter

/-! ## Collaborator capabilities of the orchestrator

`email_agent.py` consumes the classifiers of the absent `core` module, the
detectors of the absent `guardrails` module, the Gmail draft capability
and the DND window test as pure answers; each is a field of `Collab`, and
pipeline theorems quantify over them.  Stages of the absent
`edge_cases` collaborators that *modify* a `ProcessedEmail` are modelled
from the spec below (each is flagged in its doc comment). -/

structure Collab where
  /-- Embeds `SenderClassifier.classify` (absent `core` module). -/
  classify : EmailMetadata → Classification
  /-- Embeds `IntentDetector.detect` (absent `core` module). -/
  detect : EmailMetadata → Intent
  /-- Embeds `PriorityScorer.calculate_score` (absent `core` module). -/
  priorityOf : EmailMetadata → Classification → Intent → Priority
  /-- Embeds `SpamFilter.is_spam` (absent `core` module). -/
  isSpam : EmailMetadata → Classification → Bool
  /-- Embeds `EmailCategorizer.categorize` (absent `core` module). -/
  categorize : Intent → Priority → Bool → EmailCategory
  /-- Embeds `DomainChecker.is_external_email` (absent `guardrails` module);
      reads only the message metadata. -/
  isExternalEmail : EmailMetadata → Bool
  /-- Embeds `DomainChecker.check_domain_restrictions` (absent `guardrails`
      module). -/
  domainApproved : EmailMetadata → Bool
  /-- The verdict of `PIIDetector.detect_pii_and_confidential` (absent
      `guardrails` module): detected flag and detected type names. -/
  piiScan : EmailMetadata → Option DraftReply → Bool × List String
  /-- Embeds `ToneEnforcer.enforce_safe_tone` (absent `guardrails` module):
      approval flag and issue list. -/
  toneCheck : EmailMetadata → DraftReply → Bool × List String
  /-- Embeds `operating_context['can_send']` from the permission checker. -/
  canSend : Bool
  /-- Embeds `DNDHandler.check_external_email_to_dnd` (absent handler). -/
  dndApplies : EmailMetadata → Bool
  /-- Embeds `ReplyDrafter.use_gemini`. -/
  useGemini : Bool
  /-- The Gemini remote call (the `text` of `generate_content`;
      `none` for an exception or missing text). -/
  remote : String → Option String
  /-- Embeds `GmailClient.create_draft`: the returned draft id (`none` for an
      exception or an empty answer). -/
  createDraftId : DraftReply → Option String
  /-- Embeds `TonePreserver.preserves_tone_or_reply_after_hour` (absent). -/
  shouldDelay : DraftReply → Bool
  /-- Embeds `FollowUpGenerator.generate_follow_ups` (absent). -/
  followUpsOf : EmailMetadata → Intent → List String
  /-- Embeds `Config.ALLOWED_DOMAINS` of the absent top-level `config` module. -/
  allowedDomains : List String

/-- Embeds `EmailAgent._create_processed_email`. -/
def create_processed_email (metadata : EmailMetadata) : ProcessedEmail :=
  { metadata := metadata
    status := .pending
    received_at := metadata.date }

/-- The audit notes appended by `EmailAgent._process_email_core_pipeline`
(S1–S7), in source order. -/
def coreNotes (classification : Classification) (intent : Intent)
    (priority : Priority) (is_spam : Bool) (category : EmailCategory) :
    List String :=
  let styp := classification.sender_type
  let svip := pyBool classification.is_vip
  let score := priority.score
  let level_name := priority.priority_level.name
  let catv := category.value
  (if classification.notes ≠ "" then
    let cnotes := classification.notes
    [s!"Classification notes: {cnotes}"]
   else []) ++
  [s!"Sender type: {styp}, VIP: {svip}"] ++
  (match intent.primary_intent with
   | some p => if p ≠ "" then [s!"Intent detected: {p}"] else []
   | none => []) ++
  (if intent.keywords_detected ≠ [] then
    let kws := String.intercalate ", " intent.keywords_detected
    [s!"Keywords: {kws}"]
   else []) ++
  (if intent.urgency_keywords ≠ [] then
    let ukws := String.intercalate ", " intent.urgency_keywords
    [s!"Urgency keywords: {ukws}"]
   else []) ++
  [s!"Priority score: {score}/100 ({level_name})"] ++
  (if priority.reasoning ≠ "" then
    let reasoning := priority.reasoning
    [s!"Priority reasoning: {reasoning}"]
   else []) ++
  [s!"Category assigned: {catv}"] ++
  (if is_spam then ["Marked as SPAM by spam filter"] else [])

/-- Embeds `EmailAgent._process_email_core_pipeline` (S1–S16): classification,
intent, priority, category and spam stages with their audit notes
(`coreNotes`, appended in source order); a spam verdict blocks the email
and returns early, otherwise the reply decision is taken.
`SpamFilter.mark_as_blocked` only updates the filter's own bookkeeping
and is invisible on the email. -/
def process_email_core_pipeline (c : Collab) (email : ProcessedEmail) :
    ProcessedEmail :=
  let classification := c.classify email.metadata
  let intent := c.detect email.metadata
  let priority := c.priorityOf email.metadata classification intent
  let is_spam := c.isSpam email.metadata classification
  let category := c.categorize intent priority is_spam
  let notes := email.processing_notes ++
    coreNotes classification intent priority is_spam category
  if is_spam then
    -- S8–S9: spam short-circuit (status was PROCESSING, becomes BLOCKED)
    { email with
      classification := some classification
      intent := some intent
      priority := some priority
      is_spam := true
      category := category
      is_blocked := true
      status := .blocked
      processing_notes := notes }
  else
    -- S11: reply decision, with note
    let requires_reply := intent.action_required || intent.question_detected ||
        category = .action
    { email with
      classification := some classification
      intent := some intent
      priority := some priority
      is_spam := false
      category := category
      requires_reply := requires_reply
      status := .processing
      processing_notes := notes ++
        [if requires_reply then "Marked as requiring a reply"
         else "No reply required"] }

/-- The sender's date key used by the conflict resolver (a missing date is
compared as the epoch). -/
def dateVal (e : ProcessedEmail) : Int := e.metadata.date.getD 0

/-- Modelled from the spec:
`ConflictResolver.check_multiple_from_same_sender` of the absent
`edge_cases/conflict_resolver.py` — the senders that occur on at least two
emails of the batch (§4.6 "each sender with ≥2 emails in the batch"), in
first-occurrence order. -/
def conflictSenders (emails : List ProcessedEmail) : List String :=
  (dedupFirst [] (emails.map (·.metadata.sender))).filter
    (fun s => 2 ≤ (emails.map (·.metadata.sender)).count s)

/-- Modelled from the spec: the "most recent (by `date`)" email of a
non-empty list (§4.6); Python `max` keeps the first maximum on ties. -/
def pickLatest : List ProcessedEmail → Option ProcessedEmail
  | [] => none
  | e :: t => some (t.foldl (fun a b => if dateVal a < dateVal b then b else a) e)

/-- The superseded audit note appended by `EmailAgent._handle_edge_cases`. -/
def supersededNote : String := "Superseded by a newer email from the same sender"

/-- E1–E2 of `EmailAgent._handle_edge_cases`: conflict resolution.  The
winners per conflicted sender come from the spec-modelled resolver; the
note loop appends `supersededNote` to every batch email that is not a
winner, and the batch is rebuilt as the emails of unconflicted senders
followed by the winners. -/
def handleConflicts (emails : List ProcessedEmail) : List ProcessedEmail :=
  if (conflictSenders emails).isEmpty then emails
  else
    let conflicts := conflictSenders emails
    let active := conflicts.filterMap (fun s =>
      pickLatest (emails.filter (fun e => e.metadata.sender = s)))
    let active_ids := active.map (·.metadata.message_id)
    let noted := emails.map (fun e =>
      if active_ids.contains e.metadata.message_id then e
      else { e with processing_notes := e.processing_notes ++ [supersededNote] })
    let non_conflict := noted.filter (fun e => !conflicts.contains e.metadata.sender)
    non_conflict ++ active

/-- Modelled from the spec:
`LegalFinanceDetector.check_legal_finance_content_urgent` of the absent
`edge_cases/legal_detector.py` — a legal or finance intent at HIGH
priority (§4.6 "(legal OR finance) intent AND priority ≥ HIGH"). -/
def check_legal_finance_content_urgent (email : ProcessedEmail) : Bool :=
  (match email.intent with
   | some it => it.intents.contains "legal" || it.intents.contains "finance"
   | none => false) &&
  (match email.priority with
   | some p => p.priority_level = .high
   | none => false)

/-- Modelled from the spec:
`LegalFinanceDetector.block_auto_reply_and_escalate` of the absent
`edge_cases/legal_detector.py` — emits an escalation `SecurityFlag`
(`legal_content` or `finance_content`, severity high) and withdraws the
email from auto-reply (§4.6 "emits an escalation flag; no auto-reply is
produced"). -/
def block_auto_reply_and_escalate (email : ProcessedEmail) : ProcessedEmail :=
  let isLegal :=
    match email.intent with
    | some it => it.intents.contains "legal"
    | none => false
  let flag : SecurityFlag :=
    { flag_type := if isLegal then "legal_content" else "finance_content"
      severity := "high"
      description := "Escalated for human review (legal/finance at high priority)"
      blocks_sending := false }
  { email with
    security_flags := email.security_flags ++ [flag]
    requires_reply := false }

/-- Modelled from the spec: `DNDHandler.check_tool_alert` of the absent
`edge_cases/dnd_handler.py` — alerts exactly when the send scope is
missing (§4.6 permission mode). -/
def check_tool_alert (can_send : Bool) : Bool × String :=
  (!can_send, "Send scope missing - operating in draft-only mode")

/-- Modelled from the spec: `DNDHandler.force_draft_only_and_warn` of the
absent `edge_cases/dnd_handler.py` — records the draft-only warning on the
email's audit log (§4.6: drafts are forced to approval; at this pipeline
point no draft exists yet, so the observable effect is the note). -/
def force_draft_only_and_warn (email : ProcessedEmail) (reason : String) :
    ProcessedEmail :=
  { email with processing_notes := email.processing_notes ++
      [s!"Draft-only mode: {reason}"] }

/-- Modelled from the spec: `DNDHandler.handle_dnd_decision` of the absent
`edge_cases/dnd_handler.py` — records that the DND window withholds
auto-approval (§4.6; the decision string is only logged by the caller). -/
def handle_dnd_decision (email : ProcessedEmail) : ProcessedEmail :=
  { email with processing_notes := email.processing_notes ++
      ["DND window active: draft prepared but not auto-approved"] }

/-- E5–E9 of `EmailAgent._handle_edge_cases` for one email: tool alert
then DND check (only reached for unblocked emails). -/
def dndStep (c : Collab) (email : ProcessedEmail) : ProcessedEmail :=
  let alert := check_tool_alert c.canSend
  let email := if alert.1 then force_draft_only_and_warn email alert.2 else email
  if c.dndApplies email.metadata then handle_dnd_decision email else email

/-- E3–E4 of `EmailAgent._handle_edge_cases` for one email: legal/finance
escalation of unblocked emails. -/
def legalStep (email : ProcessedEmail) : ProcessedEmail :=
  if !email.is_blocked && check_legal_finance_content_urgent email then
    block_auto_reply_and_escalate email
  else email

/-- The `is_blocked` guard around `dndStep` in
`EmailAgent._handle_edge_cases`. -/
def dndGate (c : Collab) (email : ProcessedEmail) : ProcessedEmail :=
  if email.is_blocked then email else dndStep c email

/-- Embeds `EmailAgent._handle_edge_cases` (E1–E9): conflict resolution on the
whole batch, then legal/finance escalation and DND handling on each
unblocked email. -/
def handle_edge_cases (c : Collab) (emails : List ProcessedEmail) :
    List ProcessedEmail :=
  ((handleConflicts emails).map legalStep).map (dndGate c)

/-- Embeds `EmailAgent._draft_replies` (S11–S15): draft via the drafter, check
clarification, persist the draft for its id, and schedule follow-ups when
the tone/timing check asks for a delay.  The source reads `email.intent`,
which the core stage always assigned; a `none` intent would raise in
Python and abort the batch, and is left unchanged here. -/
def draft_replies (c : Collab) (now : Int) (email : ProcessedEmail) :
    ProcessedEmail :=
  if !email.requires_reply || email.is_blocked then email
  else
    match email.intent with
    | none => email
    | some intent =>
      match ReplyDrafter.draft_reply c.useGemini c.remote now email.metadata intent with
      | none => email
      | some draft =>
        let email := { email with draft_reply := some draft }
        -- clarification gate
        let email :=
          if ClarificationHandler.needs_clarification email then
            { email with
              needs_clarification := true
              clarification_request :=
                some (ClarificationHandler.generate_clarification_request email)
              draft_reply := email.draft_reply.map
                (fun d => { d with requires_approval := true })
              status := .approval_required }
          else email
        -- persist the draft in Gmail; a returned id is attached
        let email :=
          match email.draft_reply with
          | some d =>
            (match c.createDraftId d with
             | some draft_id =>
               { email with draft_reply := some { d with draft_id := some draft_id } }
             | none => email)
          | none => email
        -- S14–S15: tone/timing check and follow-ups
        match email.draft_reply with
        | some d =>
          if c.shouldDelay d then
            { email with follow_ups := c.followUpsOf email.metadata intent }
          else email
        | none => email

/-- G1 of `EmailAgent._apply_guardrails`: PII detection with its audit
notes.  The absent `PIIDetector.detect_pii_and_confidential` records a
`pii_detected` flag on a hit, modelled from the spec (§4.5 "records a
`pii_detected` flag"). -/
def piiStep (c : Collab) (email : ProcessedEmail) : ProcessedEmail :=
  let pii := c.piiScan email.metadata email.draft_reply
  if pii.1 then
    let piiFlag : SecurityFlag :=
      { flag_type := "pii_detected"
        severity := "high"
        description := "PII or confidential content detected"
        blocks_sending := false }
    let email2 := { email with
      has_pii := true
      security_flags := email.security_flags ++ [piiFlag] }
    if pii.2 ≠ [] then
      let types := String.intercalate ", " pii.2
      { email2 with processing_notes := email2.processing_notes ++
          [s!"PII detected: {types}"] }
    else
      { email2 with processing_notes := email2.processing_notes ++
          ["PII detected (types not identified)"] }
  else email

/-- G2 of `EmailAgent._apply_guardrails`: the domain-restriction note. -/
def domainStep (c : Collab) (email : ProcessedEmail) : ProcessedEmail :=
  if !c.domainApproved email.metadata then
    { email with processing_notes := email.processing_notes ++
        ["Domain restriction: external domain not approved for automatic action"] }
  else email

/-- G3 of `EmailAgent._apply_guardrails`: tone enforcement on a present
draft, with its notes. -/
def toneStep (c : Collab) (email : ProcessedEmail) : ProcessedEmail :=
  match email.draft_reply with
  | some d =>
    let tone := c.toneCheck email.metadata d
    if !tone.1 then
      if tone.2 ≠ [] then
        let issues := String.intercalate ", " tone.2
        { email with processing_notes := email.processing_notes ++
            [s!"Tone issues found: {issues}"] }
      else
        { email with processing_notes := email.processing_notes ++
            ["Tone enforcement flagged the draft"] }
    else email
  | none => email

/-- The reply-all risk detection of `EmailAgent._apply_guardrails`
(`block_if_risky` runs only when a draft exists). -/
def replyAllStep (c : Collab) (email : ProcessedEmail) : ProcessedEmail :=
  if email.draft_reply.isSome then block_if_risky c.allowedDomains email
  else email

/-- G4–G6 of `EmailAgent._apply_guardrails`: the final gate.  An external
sender or any security flag forces `APPROVAL_REQUIRED` and
`requires_approval = true` on a draft; otherwise the email is marked
`DRAFT_READY` and a draft's `requires_approval` is reset to `false`. -/
def finalGate (c : Collab) (email : ProcessedEmail) : ProcessedEmail :=
  let is_external := c.isExternalEmail email.metadata
  let has_security_flags := email.security_flags ≠ []
  if is_external || has_security_flags then
    { email with
      status := .approval_required
      draft_reply := email.draft_reply.map (fun d => { d with requires_approval := true })
      processing_notes := email.processing_notes ++
        ["Approval required due to external sender or high-risk security flags"] }
  else
    { email with
      status := .draft_ready
      draft_reply := email.draft_reply.map (fun d => { d with requires_approval := false }) }

/-- Embeds `EmailAgent._apply_guardrails` (G1–G7): PII detection, domain
restriction, tone enforcement, reply-all risk, then the final gate, in
source order. -/
def apply_guardrails (c : Collab) (email : ProcessedEmail) : ProcessedEmail :=
  finalGate c (replyAllStep c (toneStep c (domainStep c (piiStep c email))))

/-- The `is_blocked` guard around `_draft_replies` in the SECTION 5 loop
of `EmailAgent.run`. -/
def draftGate (c : Collab) (now : Int) (email : ProcessedEmail) :
    ProcessedEmail :=
  if !email.is_blocked then draft_replies c now email else email

/-- Embeds `EmailAgent.run`, sections 3–6: the per-batch pipeline from ingested
metadata to the completed batch's email list (queue assembly, metrics and
notifications read but do not modify the emails). -/
def runPipeline (c : Collab) (now : Int) (metas : List EmailMetadata) :
    List ProcessedEmail :=
  let emails := metas.map create_processed_email
  let emails := emails.map (process_email_core_pipeline c)
  let emails := handle_edge_cases c emails
  let emails := emails.map (draftGate c now)
  emails.map (apply_guardrails c)

/-! ## Concrete batches for counterexamples and witnesses -/

/-- A demonstration collaborator assignment: an internal team sender, no
PII, approved domain, clean tone, send scope present, no DND, Gemini
disabled (template drafting), no persisted draft id.  The spam verdict is
the parameter. -/
def demoCollab (spam : Bool) : Collab :=
  { classify := fun _ =>
      { sender_type := "team", is_vip := false, is_internal := true, notes := "" }
    detect := fun _ =>
      { primary_intent := none
        action_required := true
        confidence := 90 }
    priorityOf := fun _ _ _ =>
      { score := 55, priority_level := .medium, reasoning := "" }
    isSpam := fun _ _ => spam
    categorize := fun _ _ _ => .informational
    isExternalEmail := fun _ => false
    domainApproved := fun _ => true
    piiScan := fun _ _ => (false, [])
    toneCheck := fun _ _ => (true, [])
    canSend := true
    dndApplies := fun _ => false
    useGemini := false
    remote := fun _ => none
    createDraftId := fun _ => none
    shouldDelay := fun _ => false
    followUpsOf := fun _ _ => []
    allowedDomains := ["company.com"] }

/-- A single internal message for the demonstration batches. -/
def demoMeta : EmailMetadata :=
  { message_id := "m1"
    thread_id := "t1"
    sender := "bob@company.com"
    subject := "status?"
    body := "please send the report"
    recipients := ["me@company.com"]
    date := some 100 }

/-- Fallback `DraftReply` for `Option.getD` in closed statements. -/
def defaultDraft : DraftReply :=
  { subject := ""
    body := ""
    recipients := []
    cc := []
    tone := ""
    preserves_tone := false
    created_at := 0
    requires_approval := true }

/-- The single completed email of the non-spam demonstration batch. -/
def demoOut : ProcessedEmail :=
  (runPipeline (demoCollab false) 0 [demoMeta]).headD
    (create_processed_email demoMeta)

/-- The draft held by `demoOut`. -/
def demoDraft : DraftReply := demoOut.draft_reply.getD defaultDraft

/-- The single completed email of the spam demonstration batch. -/
def spamOut : ProcessedEmail :=
  (runPipeline (demoCollab true) 0 [demoMeta]).headD
    (create_processed_email demoMeta)

/-- A processed email carrying a `pii_detected` flag and a draft that
reaches one external recipient (for the reply-all escalation claim). -/
def piiEmail : ProcessedEmail :=
  { metadata := demoMeta
    category := .informational
    has_pii := true
    security_flags :=
      [{ flag_type := "pii_detected"
         severity := "high"
         description := "PII or confidential content detected"
         blocks_sending := false }]
    draft_reply := some
      { subject := "Re: status?"
        body := "the card number is attached"
        recipients := ["alice@partner.example"]
        cc := []
        tone := "professional"
        preserves_tone := true
        created_at := 0
        requires_approval := true } }

/-- Three-email batch for the conflict-resolution claim: two messages from
the same sender (the newer dated later) and one from another sender. -/
def conflictBatch : List ProcessedEmail :=
  [{ metadata := { demoMeta with
       message_id := "a1"
       sender := "alice@partner.example"
       date := some 100 }
     status := .processing },
   { metadata := { demoMeta with
       message_id := "b1"
       sender := "bob@company.com"
       date := some 150 }
     status := .processing },
   { metadata := { demoMeta with
       message_id := "a2"
       sender := "alice@partner.example"
       date := some 200 }
     status := .processing }]

/-- Metadata whose subject carries a 16-digit card number (PII). -/
def piiMeta : EmailMetadata :=
  { message_id := "m9"
    thread_id := "t9"
    sender := "alice@partner.example"
    subject := "card 4242424242424242 follow-up"
    body := "see above"
    date := some 0 }

/-- Intent record for the PII drafting scenario. -/
def piiIntent : Intent :=
  { primary_intent := some "question"
    action_required := false
    confidence := 90 }

/-- A remote capability that simply echoes the prompt it was handed, used
to expose which text the drafter sends to the model. -/
def echoRemote : String → Option String := fun s => some s

end Agent

namespace App

/-! ## Concrete scorer inputs for counterexamples and witnesses -/

/-- Metadata of the urgency-floor counterexample: an unremarkable message
whose body carries exactly 15 points of urgency keywords. -/
def floorMeta : EmailMetadata :=
  { sender := "spam@x.com"
    subject := ""
    body := "asap stuck"
    date := none }

/-- Spam-sender classification for the urgency-floor counterexample. -/
def floorCls : ClassificationResult :=
  { sender_type := .spam
    sender_email := "spam@x.com"
    sender_domain := "x.com"
    is_vip := false
    is_internal := false
    confidence := 20
    notes := "" }

/-- Metadata of the score-range counterexample: a fresh VIP reply with
attachments and business-critical, deadline-laden text. -/
def rangeMeta : EmailMetadata :=
  { sender := "cfo@google.com"
    subject := "re: contract agreement attached invoice - urgent deal revenue deadline by eod"
    body := "please revenue contract deadline"
    date := some 0
    recipients := ["me@x.com"]
    has_attachments := true }

/-- VIP classification for the score-range counterexample. -/
def rangeCls : ClassificationResult :=
  { sender_type := .vip
    sender_email := "cfo@google.com"
    sender_domain := "google.com"
    is_vip := true
    is_internal := false
    confidence := 100
    notes := "" }

/-- Intent input of the score-range counterexample: maximal urgency with
complaint, legal and finance intents. -/
def rangeIntent : IntentDetection :=
  { intents := ["complaint", "legal", "finance"]
    urgency_keywords := ["today"]
    urgency_score := 35
    action_required := true
    question_detected := true
    is_follow_up := true }

/-- Intent input for the urgency-floor witness (urgency 18). -/
def floorIntent18 : IntentDetection :=
  { intents := []
    urgency_keywords := ["urgent", "today"]
    urgency_score := 18
    action_required := false
    question_detected := false
    is_follow_up := false }

/-- The scanner's own verdict on `floorMeta` (its body scores exactly
`asap`(8) + `stuck`(7) = 15 urgency points). -/
def floorIntent : IntentDetection := scan (some floorMeta.subject) (some floorMeta.body)

end App

/-! # Theorems

One theorem per claim of the specification review, preceded by shared
helper lemmas.  Claim theorems are self-contained: no claim theorem,
witness or counterexample is used by any other declaration. -/

/-! ## Helper lemmas -/

/-- The value `int(n * 1.15)` dominates `n` on the scorer's reachable range. -/
theorem pymul115Nat_ge : ∀ n < 200, n ≤ pymul115Nat n := by decide

/-- Integer version of `pymul115Nat_ge`. -/
theorem pymul115_ge (x : Int) (h0 : 0 ≤ x) (h1 : x < 200) : x ≤ pymul115 x := by
  unfold pymul115
  rw [if_neg (by omega)]
  have h := pymul115Nat_ge x.toNat (by omega)
  omega

/-- The factor `App.score_sender` stays within its 0–40 budget. -/
theorem score_sender_le (cls : App.ClassificationResult) :
    App.score_sender cls ≤ 40 := by
  unfold App.score_sender
  split_ifs
  · omega
  · cases h : cls.sender_type <;> simp

/-- The factor `App.score_urgency` is capped at 35. -/
theorem score_urgency_le (it : App.IntentDetection) :
    App.score_urgency it ≤ 35 := min_le_right _ _

/-- The factor `App.score_action` is capped at 15. -/
theorem score_action_le (it : App.IntentDetection) :
    App.score_action it ≤ 15 := min_le_right _ _

/-- The factor `App.score_age` is capped at 10. -/
theorem score_age_le (now : Int) (d : Option Int) :
    App.score_age now d ≤ 10 := by
  unfold App.score_age
  cases d
  · simp
  · dsimp only
    split_ifs <;> omega

/-- The factor `App.score_thread` is capped at 15. -/
theorem score_thread_le (md : App.EmailMetadata) :
    App.score_thread md ≤ 15 := min_le_right _ _

/-- The factor `App.score_category` is capped at 20. -/
theorem score_category_le (it : App.IntentDetection) :
    App.score_category it ≤ 20 := min_le_right _ _

/-- The factor `App.score_business_context` is capped at 10. -/
theorem score_business_le (md : App.EmailMetadata) (it : App.IntentDetection) :
    App.score_business_context md it ≤ 10 :=
  max_le (by omega) (min_le_right _ _)

/-- The final clamp of the scorer preserves a lower bound of 50. -/
theorem clamp_ge_50 {x : Int} (h : 50 ≤ x) : 50 ≤ max 0 (min 150 x) :=
  le_trans (le_min (by omega) h) (le_max_right _ _)

/-- The compound-signal boost preserves a lower bound of 50 on the
scorer's reachable range. -/
theorem boost_ge_50 {x : Int} (c : Prop) [Decidable c] (h : 50 ≤ x)
    (hb : x ≤ 145) : 50 ≤ (if c then pymul115 x else x) := by
  split_ifs
  · exact le_trans h (pymul115_ge x (by omega) (by omega))
  · exact h

/-! ## C2 — the priority-level step function -/

/-- C2 (counterexample): the claim fixes `HIGH` at scores `≥ 70`, but the
code's `PriorityScorer._determine_level` maps 70 to `MEDIUM`
(its `HIGH` threshold is 75). -/
theorem C2_counterexample :
    App.determine_level 70 = App.PriorityLevel.medium ∧
    App.determine_level 70 ≠ App.PriorityLevel.high := by decide

/-- C2 (amended): for every integer score in `[0, 100]`,
`_determine_level` is the step function with `HIGH` at `score ≥ 75`
(not 70), `MEDIUM` on `[50, 75)`, `LOW` on `[30, 50)` and
`NOT_REQUIRED` below 30. -/
theorem C2_level_step_function (s : Int) (h0 : 0 ≤ s) (h1 : s ≤ 100) :
    (App.determine_level s = App.PriorityLevel.high ↔ 75 ≤ s) ∧
    (App.determine_level s = App.PriorityLevel.medium ↔ 50 ≤ s ∧ s < 75) ∧
    (App.determine_level s = App.PriorityLevel.low ↔ 30 ≤ s ∧ s < 50) ∧
    (App.determine_level s = App.PriorityLevel.not_required ↔ s < 30) := by
  unfold App.determine_level
  split_ifs with hA hB hC <;>
    refine ⟨?_, ?_, ?_, ?_⟩ <;> simp_all <;> omega

/-- C2 (witness): the amended step function evaluated at score 80. -/
theorem C2_witness :
    (App.determine_level 80 = App.PriorityLevel.high ↔ (75 : Int) ≤ 80) ∧
    (App.determine_level 80 = App.PriorityLevel.medium ↔ (50 : Int) ≤ 80 ∧ (80 : Int) < 75) ∧
    (App.determine_level 80 = App.PriorityLevel.low ↔ (30 : Int) ≤ 80 ∧ (80 : Int) < 50) ∧
    (App.determine_level 80 = App.PriorityLevel.not_required ↔ (80 : Int) < 30) :=
  C2_level_step_function 80 (by decide) (by decide)

/-! ## C5 — the composite score range -/

/-- C5 (counterexample): the claim bounds the composite score by 100, but
on a fresh VIP reply with maximal urgency, complaint/legal/finance
intents, attachments and business-critical text the scorer returns 150. -/
theorem C5_counterexample :
    (App.calculate_score 0 App.rangeMeta App.rangeCls App.rangeIntent).score = 150 ∧
    ¬((App.calculate_score 0 App.rangeMeta App.rangeCls App.rangeIntent).score ≤ 100) := by
  decide

/-- C5 (amended): for every clock, metadata, classification and intent
input, the composite score returned by `PriorityScorer.calculate_score`
is an integer in `[0, 150]` (the code's clamp), not `[0, 100]`. -/
theorem C5_score_range (now : Int) (md : App.EmailMetadata)
    (cls : App.ClassificationResult) (it : App.IntentDetection) :
    0 ≤ (App.calculate_score now md cls it).score ∧
    (App.calculate_score now md cls it).score ≤ 150 := by
  dsimp only [App.calculate_score]
  exact ⟨le_max_left _ _, max_le (by omega) (min_le_left _ _)⟩

/-! ## C6 — the urgency floor -/

/-- C6 (counterexample): the claim floors the score to 50 from urgency 15
on, but the code's floor fires only at `urgency_score ≥ 18`: the scanner
gives `floorMeta` exactly 15 urgency points, and the scorer leaves its
total at 15. -/
theorem C6_counterexample :
    App.floorIntent.urgency_score = 15 ∧
    (App.calculate_score 0 App.floorMeta App.floorCls App.floorIntent).score = 15 ∧
    ¬(50 ≤ (App.calculate_score 0 App.floorMeta App.floorCls App.floorIntent).score) := by
  decide

/-- C6 (amended): the urgency floor holds from 18 on — for every input
with `intent.urgency_score ≥ 18`, the final score is at least 50. -/
theorem C6_urgency_floor (now : Int) (md : App.EmailMetadata)
    (cls : App.ClassificationResult) (it : App.IntentDetection)
    (h : 18 ≤ it.urgency_score) :
    50 ≤ (App.calculate_score now md cls it).score := by
  have hs := score_sender_le cls
  have hu := score_urgency_le it
  have ha := score_action_le it
  have hg := score_age_le now md.date
  have ht := score_thread_le md
  have hc := score_category_le it
  have hb := score_business_le md it
  dsimp only [App.calculate_score]
  apply clamp_ge_50
  apply boost_ge_50 <;> split_ifs <;> omega

/-- C6 (witness): the amended floor at a concrete input with urgency 18. -/
theorem C6_witness :
    (18 : Int) ≤ App.floorIntent18.urgency_score ∧
    50 ≤ (App.calculate_score 0 App.floorMeta App.floorCls App.floorIntent18).score :=
  ⟨by decide, C6_urgency_floor 0 App.floorMeta App.floorCls App.floorIntent18 (by decide)⟩

/-! ## C9 — subject-keyword weighting -/

/-- C9 (counterexample): the urgency table contains `("no rush", 1)`; the
code's subject contribution is `int(weight * 1.5)`, which at weight 1
equals 1 — it is not `round(1 × 1.7) = 2` and does not strictly exceed the
body contribution 1. -/
theorem C9_counterexample :
    ("no rush", 1) ∈ App.URGENCY_KEYWORDS ∧
    py15 1 = 1 ∧ ¬((2 : Nat) = py15 1) ∧ ¬((1 : Int) < (py15 1 : Int)) := by decide

/-- C9 (amended): a subject hit contributes `int(weight * 1.5)` (not
`round(weight × 1.7)`), and for every urgency-table entry of weight at
least 2 — all entries except `("no rush", 1)` — that subject contribution
strictly exceeds the body contribution `weight`. -/
theorem C9_subject_weight_dominance (kw : String) (w : Nat)
    (hmem : (kw, w) ∈ App.URGENCY_KEYWORDS) (h2 : 2 ≤ w)
    (subj text : String) (acc : Int × List String)
    (hhit : strContains kw subj = true) :
    (App.urgencyKeywordStep subj text acc (kw, w)).1 = acc.1 + (py15 w : Int) ∧
    (w : Int) < (py15 w : Int) := by
  constructor
  · simp [App.urgencyKeywordStep, hhit]
  · unfold py15
    omega

/-- C9 (witness): the amended dominance at the entry `("urgent", 8)` hit
in the subject. -/
theorem C9_witness :
    (App.urgencyKeywordStep "urgent please" "urgent please" (0, []) ("urgent", 8)).1
      = 0 + (py15 8 : Int) ∧
    ((8 : Nat) : Int) < (py15 8 : Int) :=
  C9_subject_weight_dominance "urgent" 8 (by decide) (by decide)
    "urgent please" "urgent please" (0, []) (by decide)

/-! ## C10 — totality and range of the intent scanner -/

/-- C10: `IntentScanner.scan` accepts missing subject or body and behaves
as on the empty string, and its `urgency_score` always lies in `[0, 35]`. -/
theorem C10_scan_totality :
    (∀ b, App.scan none b = App.scan (some "") b) ∧
    (∀ a, App.scan a none = App.scan a (some "")) ∧
    (∀ a b, 0 ≤ (App.scan a b).urgency_score ∧ (App.scan a b).urgency_score ≤ 35) := by
  refine ⟨fun b => rfl, fun a => rfl, fun a b => ?_⟩
  dsimp only [App.scan]
  exact ⟨le_max_left _ _, max_le (by omega) (min_le_right _ _)⟩

/-! ## C4 — anonymization before the remote model -/

/-- C4 (counterexample): the `ReplyDrafter` LLM path hands the remote
model the built prompt itself — an echoing remote returns exactly
`build_context` — while `anonymize` would have changed that prompt (the
subject carries a 16-digit card number), so the text passed to the remote
model is not `anonymize(built prompt)`. -/
theorem C4_counterexample :
    Agent.ReplyDrafter.generate_with_gemini Agent.echoRemote true
        (Agent.ReplyDrafter.build_context Agent.piiMeta Agent.piiIntent)
      = some (Agent.ReplyDrafter.build_context Agent.piiMeta Agent.piiIntent) ∧
    Llm.anonymize_text (Agent.ReplyDrafter.build_context Agent.piiMeta Agent.piiIntent)
      ≠ Agent.ReplyDrafter.build_context Agent.piiMeta Agent.piiIntent := by
  decide

/-- C4 (amended): the graph pipeline's `call_llm` consults its remote
models only at `anonymize_text(prompt)`: two Gemini and two Ollama
capabilities that agree on the scrubbed prompt give `call_llm` identical
results, whatever they do on the raw prompt.  The `ReplyDrafter`'s direct
Gemini path carries no such guarantee (see the counterexample). -/
theorem C4_router_scrubs (gem gem2 : String → Option String)
    (oll oll2 : String → String) (prompt task task2 : String)
    (hg : gem (Llm.anonymize_text prompt) = gem2 (Llm.anonymize_text prompt))
    (ho : oll (Llm.anonymize_text prompt) = oll2 (Llm.anonymize_text prompt)) :
    Llm.call_llm gem oll prompt task = Llm.call_llm gem2 oll2 prompt task2 := by
  unfold Llm.call_llm
  dsimp only
  rw [hg, ho]

/-- C4 (witness): a Gemini capability that would leak on the raw card
number agrees on the scrubbed prompt with a silent one, and `call_llm`
cannot tell them apart. -/
theorem C4_witness :
    Llm.call_llm
      (fun s => if s = "pay 4242424242424242" then some "leak" else none)
      (fun _ => "fallback") "pay 4242424242424242" "drafting"
    = Llm.call_llm (fun _ => none) (fun _ => "fallback")
        "pay 4242424242424242" "compose" :=
  C4_router_scrubs
    (fun s => if s = "pay 4242424242424242" then some "leak" else none)
    (fun _ => none) (fun _ => "fallback") (fun _ => "fallback")
    "pay 4242424242424242" "drafting" "compose" (by decide) (by decide)

/-! ## C7 — reply-all PII escalation -/

/-- Once the running risk level reaches `critical`, the PII factor's fold
keeps it there. -/
theorem pii_fold_keeps_critical (extn : Nat) (flags : List Agent.SecurityFlag)
    (init : String × List String) (h : init.1 = "critical") :
    (flags.foldl (fun acc flag =>
        if flag.flag_type = "pii_detected" && decide (0 < extn) then
          ("critical", acc.2 ++ ["PII detected with external recipients"])
        else acc) init).1 = "critical" := by
  induction flags generalizing init with
  | nil => exact h
  | cons a t ih =>
    dsimp only [List.foldl]
    split_ifs with hc
    · exact ih _ rfl
    · exact ih _ h

/-- A `pii_detected` flag among the flags and a positive external count
drive the PII factor's fold to `critical`. -/
theorem pii_fold_sets_critical (extn : Nat) (hx : 0 < extn)
    (flags : List Agent.SecurityFlag) (init : String × List String)
    (h : ∃ f ∈ flags, f.flag_type = "pii_detected") :
    (flags.foldl (fun acc flag =>
        if flag.flag_type = "pii_detected" && decide (0 < extn) then
          ("critical", acc.2 ++ ["PII detected with external recipients"])
        else acc) init).1 = "critical" := by
  induction flags generalizing init with
  | nil => simp at h
  | cons a t ih =>
    dsimp only [List.foldl]
    rcases h with ⟨f, hf, hty⟩
    rcases List.mem_cons.mp hf with rfl | hft
    · rw [if_pos (by simp [hty, hx])]
      exact pii_fold_keeps_critical extn t _ rfl
    · split_ifs with hc
      · exact pii_fold_keeps_critical extn t _ rfl
      · exact ih _ ⟨f, hft, hty⟩

/-- C7: for every `ProcessedEmail` carrying a `pii_detected` security flag
whose draft reply reaches at least one external recipient, the reply-all
analysis yields severity `critical`, and `block_if_risky` attaches a
`reply_all_risk` flag with `blocks_sending = true` and sets
`is_blocked = true`. -/
theorem C7_pii_reply_all_escalation (allowed : List String)
    (e : Agent.ProcessedEmail) (d : Agent.DraftReply)
    (hd : e.draft_reply = some d)
    (hpii : ∃ f ∈ e.security_flags, f.flag_type = "pii_detected")
    (hext : 0 < (Agent.get_external_recipients allowed (d.recipients ++ d.cc)).length) :
    (Agent.analyze_reply_all_risk allowed e).risk_level = "critical" ∧
    (Agent.block_if_risky allowed e).is_blocked = true ∧
    ∃ f ∈ (Agent.block_if_risky allowed e).security_flags,
      f.flag_type = "reply_all_risk" ∧ f.severity = "critical" ∧
      f.blocks_sending = true := by
  have hcrit : (Agent.analyze_reply_all_risk allowed e).risk_level = "critical" := by
    unfold Agent.analyze_reply_all_risk
    rw [hd]
    dsimp only
    exact pii_fold_sets_critical _ hext e.security_flags _ hpii
  refine ⟨hcrit, ?_, ?_⟩
  · unfold Agent.block_if_risky
    dsimp only
    rw [hcrit]
    split_ifs with h1
    · rfl
    · exact absurd (by decide) h1
    · exact absurd (by decide) h1
  · unfold Agent.block_if_risky
    dsimp only
    rw [hcrit]
    split_ifs with h1
    · exact ⟨_, List.mem_append_right _ (List.mem_singleton_self _), rfl, rfl, rfl⟩
    · exact absurd (by decide) h1
    · exact absurd (by decide) h1

/-! ### Guardrail-stage frame lemmas -/

/-- The PII step only touches `has_pii`, the flag list and the notes. -/
theorem piiStep_frame (c : Agent.Collab) (e : Agent.ProcessedEmail) :
    (Agent.piiStep c e).is_spam = e.is_spam ∧
    (Agent.piiStep c e).is_blocked = e.is_blocked ∧
    (Agent.piiStep c e).draft_reply = e.draft_reply ∧
    (Agent.piiStep c e).metadata = e.metadata := by
  unfold Agent.piiStep
  dsimp only
  split_ifs <;> exact ⟨rfl, rfl, rfl, rfl⟩

/-- The domain step only touches the notes. -/
theorem domainStep_frame (c : Agent.Collab) (e : Agent.ProcessedEmail) :
    (Agent.domainStep c e).is_spam = e.is_spam ∧
    (Agent.domainStep c e).is_blocked = e.is_blocked ∧
    (Agent.domainStep c e).draft_reply = e.draft_reply ∧
    (Agent.domainStep c e).metadata = e.metadata := by
  unfold Agent.domainStep
  split_ifs <;> exact ⟨rfl, rfl, rfl, rfl⟩

/-- The tone step only touches the notes. -/
theorem toneStep_frame (c : Agent.Collab) (e : Agent.ProcessedEmail) :
    (Agent.toneStep c e).is_spam = e.is_spam ∧
    (Agent.toneStep c e).is_blocked = e.is_blocked ∧
    (Agent.toneStep c e).draft_reply = e.draft_reply ∧
    (Agent.toneStep c e).metadata = e.metadata := by
  unfold Agent.toneStep
  cases hd : e.draft_reply <;> dsimp only
  · exact ⟨rfl, rfl, hd.symm ▸ rfl, rfl⟩
  · split_ifs <;> exact ⟨rfl, rfl, hd.symm ▸ rfl, rfl⟩

/-- The function `block_if_risky` preserves spam status and metadata, can only raise
`is_blocked`, and preserves a missing draft. -/
theorem block_if_risky_frame (allowed : List String) (e : Agent.ProcessedEmail) :
    (Agent.block_if_risky allowed e).is_spam = e.is_spam ∧
    (e.is_blocked = true → (Agent.block_if_risky allowed e).is_blocked = true) ∧
    (e.draft_reply = none → (Agent.block_if_risky allowed e).draft_reply = none) ∧
    (Agent.block_if_risky allowed e).metadata = e.metadata := by
  unfold Agent.block_if_risky
  dsimp only
  split_ifs <;>
    refine ⟨rfl, fun h => ?_, fun h => ?_, rfl⟩ <;> simp [h]

/-- The reply-all step preserves spam status and metadata, can only raise
`is_blocked`, and preserves a missing draft. -/
theorem replyAllStep_frame (c : Agent.Collab) (e : Agent.ProcessedEmail) :
    (Agent.replyAllStep c e).is_spam = e.is_spam ∧
    (e.is_blocked = true → (Agent.replyAllStep c e).is_blocked = true) ∧
    (e.draft_reply = none → (Agent.replyAllStep c e).draft_reply = none) ∧
    (Agent.replyAllStep c e).metadata = e.metadata := by
  unfold Agent.replyAllStep
  split_ifs with h
  · exact block_if_risky_frame c.allowedDomains e
  · exact ⟨rfl, fun h => h, fun h => h, rfl⟩

/-- The final guardrail gate leaves every email in `APPROVAL_REQUIRED` or
`DRAFT_READY`. -/
theorem finalGate_status (c : Agent.Collab) (e : Agent.ProcessedEmail) :
    (Agent.finalGate c e).status = Agent.ProcessingStatus.approval_required ∨
    (Agent.finalGate c e).status = Agent.ProcessingStatus.draft_ready := by
  unfold Agent.finalGate
  dsimp only
  split_ifs
  · exact Or.inl rfl
  · exact Or.inr rfl

/-- The final gate preserves spam status, blocking and a missing draft. -/
theorem finalGate_frame (c : Agent.Collab) (e : Agent.ProcessedEmail) :
    (Agent.finalGate c e).is_spam = e.is_spam ∧
    (Agent.finalGate c e).is_blocked = e.is_blocked ∧
    (e.draft_reply = none → (Agent.finalGate c e).draft_reply = none) := by
  unfold Agent.finalGate
  dsimp only
  split_ifs <;> refine ⟨rfl, rfl, fun h => ?_⟩ <;> simp [h]

/-- After the final gate, a held draft requires approval exactly when the
sender is external or a security flag is present. -/
theorem finalGate_requires_approval (c : Agent.Collab) (e : Agent.ProcessedEmail)
    (d : Agent.DraftReply) (hd : (Agent.finalGate c e).draft_reply = some d) :
    (d.requires_approval = true ↔
      (c.isExternalEmail (Agent.finalGate c e).metadata = true ∨
       (Agent.finalGate c e).security_flags ≠ [])) := by
  unfold Agent.finalGate at hd ⊢
  dsimp only at hd ⊢
  split_ifs at hd ⊢ with h
  · obtain ⟨d0, _, rfl⟩ := Option.map_eq_some'.mp hd
    simp only [Bool.or_eq_true, decide_eq_true_eq] at h
    exact iff_of_true rfl h
  · obtain ⟨d0, _, rfl⟩ := Option.map_eq_some'.mp hd
    simp only [Bool.or_eq_true, decide_eq_true_eq] at h
    push_neg at h
    exact iff_of_false (by simp) (by simpa using h)

/-! ### Core and edge-case stage lemmas -/

/-- A spam verdict in the core stage blocks the email, sets `BLOCKED`,
and leaves the draft slot untouched. -/
theorem core_spam (c : Agent.Collab) (e : Agent.ProcessedEmail)
    (h : (Agent.process_email_core_pipeline c e).is_spam = true) :
    (Agent.process_email_core_pipeline c e).is_blocked = true ∧
    (Agent.process_email_core_pipeline c e).draft_reply = e.draft_reply ∧
    (Agent.process_email_core_pipeline c e).status = Agent.ProcessingStatus.blocked := by
  unfold Agent.process_email_core_pipeline at h ⊢
  dsimp only at h ⊢
  -- the non-spam branch is discharged by `split_ifs` itself (`h` is false there)
  split_ifs at h ⊢
  exact ⟨rfl, rfl, rfl⟩

/-- The element of a `foldl` over the two-way maximum is drawn from the
initial element and the list. -/
theorem foldl_pick_mem (t : List Agent.ProcessedEmail) :
    ∀ a, (t.foldl (fun x y => if Agent.dateVal x < Agent.dateVal y then y else x) a)
      ∈ a :: t := by
  induction t with
  | nil => intro a; exact List.mem_singleton_self a
  | cons b t ih =>
    intro a
    dsimp only [List.foldl]
    rcases List.mem_cons.mp (ih (if Agent.dateVal a < Agent.dateVal b then b else a))
      with h | h
    · rw [h]
      split_ifs
      · exact List.mem_cons_of_mem _ (List.mem_cons_self _ _)
      · exact List.mem_cons_self _ _
    · exact List.mem_cons_of_mem _ (List.mem_cons_of_mem _ h)

/-- The `foldl` two-way maximum dominates the initial element and every
list element. -/
theorem foldl_pick_ge (t : List Agent.ProcessedEmail) :
    ∀ a e, e ∈ a :: t →
      Agent.dateVal e ≤ Agent.dateVal
        (t.foldl (fun x y => if Agent.dateVal x < Agent.dateVal y then y else x) a) := by
  induction t with
  | nil =>
    intro a e he
    rcases List.mem_cons.mp he with rfl | h
    · exact le_refl _
    · cases h
  | cons b t ih =>
    intro a e he
    dsimp only [List.foldl]
    have hstep : Agent.dateVal a ≤ Agent.dateVal (if Agent.dateVal a < Agent.dateVal b then b else a) ∧
        Agent.dateVal b ≤ Agent.dateVal (if Agent.dateVal a < Agent.dateVal b then b else a) := by
      split_ifs with hab <;> constructor <;> omega
    rcases List.mem_cons.mp he with rfl | he2
    · exact le_trans hstep.1 (ih _ _ (List.mem_cons_self _ _))
    · rcases List.mem_cons.mp he2 with rfl | he3
      · exact le_trans hstep.2 (ih _ _ (List.mem_cons_self _ _))
      · exact ih _ _ (List.mem_cons_of_mem _ he3)

/-- The function `pickLatest` returns an element of its list. -/
theorem pickLatest_mem (l : List Agent.ProcessedEmail) (w : Agent.ProcessedEmail)
    (h : Agent.pickLatest l = some w) : w ∈ l := by
  cases l with
  | nil => cases h
  | cons a t =>
    unfold Agent.pickLatest at h
    injection h with h
    rw [← h]
    exact foldl_pick_mem t a

/-- The function `pickLatest` of a non-empty list succeeds and returns a maximum by
date. -/
theorem pickLatest_spec (a : Agent.ProcessedEmail) (t : List Agent.ProcessedEmail) :
    ∃ w, Agent.pickLatest (a :: t) = some w ∧
      ∀ e ∈ a :: t, Agent.dateVal e ≤ Agent.dateVal w := by
  refine ⟨_, rfl, ?_⟩
  intro e he
  exact foldl_pick_ge t a e he

/-- Membership in `dedupFirst`. -/
theorem dedupFirst_mem (a : String) :
    ∀ (seen l : List String), a ∈ dedupFirst seen l ↔ (a ∈ l ∧ a ∉ seen) := by
  intro seen l
  induction l generalizing seen with
  | nil => simp [dedupFirst]
  | cons b t ih =>
    unfold dedupFirst
    split_ifs with hb
    · rw [ih]
      have hbseen : b ∈ seen := by
        simpa using hb
      constructor
      · rintro ⟨h1, h2⟩
        exact ⟨List.mem_cons_of_mem _ h1, h2⟩
      · rintro ⟨h1, h2⟩
        rcases List.mem_cons.mp h1 with rfl | h3
        · exact absurd hbseen h2
        · exact ⟨h3, h2⟩
    · have hbseen : b ∉ seen := by
        simpa using hb
      constructor
      · intro h1
        rcases List.mem_cons.mp h1 with rfl | h3
        · exact ⟨List.mem_cons_self _ _, hbseen⟩
        · rw [ih] at h3
          refine ⟨List.mem_cons_of_mem _ h3.1, ?_⟩
          intro hseen
          exact h3.2 (List.mem_cons_of_mem _ hseen)
      · rintro ⟨h1, h2⟩
        by_cases hab : a = b
        · rw [hab]
          exact List.mem_cons_self _ _
        · rcases List.mem_cons.mp h1 with rfl | h3
          · exact absurd rfl hab
          · apply List.mem_cons_of_mem
            rw [ih]
            refine ⟨h3, ?_⟩
            intro hseen
            rcases List.mem_cons.mp hseen with h4 | h4
            · exact hab h4
            · exact h2 h4

/-- A sender with at least two batch emails is a conflict sender. -/
theorem mem_conflictSenders (emails : List Agent.ProcessedEmail) (s : String)
    (hs : 2 ≤ (emails.map (fun e => e.metadata.sender)).count s) :
    s ∈ Agent.conflictSenders emails := by
  unfold Agent.conflictSenders
  rw [List.mem_filter]
  constructor
  · rw [dedupFirst_mem]
    refine ⟨?_, by simp⟩
    have : 0 < (emails.map (fun e => e.metadata.sender)).count s := by omega
    exact List.count_pos_iff.mp this
  · simpa using hs

/-- Every element of `handleConflicts`' output is an input email whose
only possible change is the appended superseded note. -/
theorem handleConflicts_mem (emails : List Agent.ProcessedEmail)
    (e2 : Agent.ProcessedEmail) (h : e2 ∈ Agent.handleConflicts emails) :
    ∃ e1 ∈ emails, e2.metadata = e1.metadata ∧ e2.status = e1.status ∧
      e2.is_spam = e1.is_spam ∧ e2.is_blocked = e1.is_blocked ∧
      e2.draft_reply = e1.draft_reply ∧ e2.security_flags = e1.security_flags ∧
      e2.requires_reply = e1.requires_reply ∧ e2.intent = e1.intent ∧
      e2.priority = e1.priority ∧
      (e2 = e1 ∨ e2.processing_notes = e1.processing_notes ++ [Agent.supersededNote]) := by
  rw [Agent.handleConflicts.eq_def] at h
  split_ifs at h with hempty
  · exact ⟨e2, h, rfl, rfl, rfl, rfl, rfl, rfl, rfl, rfl, rfl, Or.inl rfl⟩
  · dsimp only at h
    rcases List.mem_append.mp h with h2 | h2
    · have h3 := List.mem_of_mem_filter h2
      obtain ⟨e1, he1, hg⟩ := List.mem_map.mp h3
      refine ⟨e1, he1, ?_⟩
      split_ifs at hg
      · cases hg
        exact ⟨rfl, rfl, rfl, rfl, rfl, rfl, rfl, rfl, rfl, Or.inl rfl⟩
      · cases hg
        exact ⟨rfl, rfl, rfl, rfl, rfl, rfl, rfl, rfl, rfl, Or.inr rfl⟩
    · obtain ⟨s, hsmem, hpick⟩ := List.mem_filterMap.mp h2
      have h3 := pickLatest_mem _ _ hpick
      have h4 := List.mem_of_mem_filter h3
      exact ⟨e2, h4, rfl, rfl, rfl, rfl, rfl, rfl, rfl, rfl, rfl, Or.inl rfl⟩

/-- C7 (witness): the escalation on a concrete email with a PII flag and
an external draft recipient. -/
theorem C7_witness :
    (Agent.analyze_reply_all_risk ["company.com"] Agent.piiEmail).risk_level
      = "critical" ∧
    (Agent.block_if_risky ["company.com"] Agent.piiEmail).is_blocked = true ∧
    ∃ f ∈ (Agent.block_if_risky ["company.com"] Agent.piiEmail).security_flags,
      f.flag_type = "reply_all_risk" ∧ f.severity = "critical" ∧
      f.blocks_sending = true :=
  C7_pii_reply_all_escalation ["company.com"] Agent.piiEmail
    (Agent.piiEmail.draft_reply.getD Agent.defaultDraft)
    (by decide) (by decide) (by decide)

/-! ### Drafting and edge-case frame lemmas -/

/-- The legal/finance escalation step preserves spam status, blocking,
draft and status. -/
theorem legalStep_frame (e : Agent.ProcessedEmail) :
    (Agent.legalStep e).is_spam = e.is_spam ∧
    (Agent.legalStep e).is_blocked = e.is_blocked ∧
    (Agent.legalStep e).draft_reply = e.draft_reply ∧
    (Agent.legalStep e).status = e.status := by
  unfold Agent.legalStep Agent.block_auto_reply_and_escalate
  split_ifs <;> exact ⟨rfl, rfl, rfl, rfl⟩

/-- The DND step preserves spam status, blocking, draft and status. -/
theorem dndGate_frame (c : Agent.Collab) (e : Agent.ProcessedEmail) :
    (Agent.dndGate c e).is_spam = e.is_spam ∧
    (Agent.dndGate c e).is_blocked = e.is_blocked ∧
    (Agent.dndGate c e).draft_reply = e.draft_reply ∧
    (Agent.dndGate c e).status = e.status := by
  unfold Agent.dndGate Agent.dndStep Agent.force_draft_only_and_warn
    Agent.handle_dnd_decision
  dsimp only
  split_ifs <;> exact ⟨rfl, rfl, rfl, rfl⟩

/-- The drafting stage never changes spam status or blocking. -/
theorem draft_replies_frame (c : Agent.Collab) (now : Int)
    (e : Agent.ProcessedEmail) :
    (Agent.draft_replies c now e).is_spam = e.is_spam ∧
    (Agent.draft_replies c now e).is_blocked = e.is_blocked := by
  unfold Agent.draft_replies
  split_ifs
  · exact ⟨rfl, rfl⟩
  · cases e.intent <;> dsimp only
    · exact ⟨rfl, rfl⟩
    · split
      · exact ⟨rfl, rfl⟩
      · repeat' split
        all_goals exact ⟨rfl, rfl⟩

/-- The drafting gate preserves spam status and blocking; a blocked email
passes through unchanged. -/
theorem draftGate_frame (c : Agent.Collab) (now : Int)
    (e : Agent.ProcessedEmail) :
    (Agent.draftGate c now e).is_spam = e.is_spam ∧
    (Agent.draftGate c now e).is_blocked = e.is_blocked ∧
    (e.is_blocked = true → Agent.draftGate c now e = e) := by
  unfold Agent.draftGate
  split_ifs with h
  · exact ⟨(draft_replies_frame c now e).1, (draft_replies_frame c now e).2,
      fun hb => absurd hb (by simpa using h)⟩
  · exact ⟨rfl, rfl, fun _ => rfl⟩

/-- The whole guardrail stage preserves spam status, keeps a blocked email
blocked, and keeps a missing draft missing. -/
theorem guardrails_frame (c : Agent.Collab) (e : Agent.ProcessedEmail) :
    (Agent.apply_guardrails c e).is_spam = e.is_spam ∧
    (e.is_blocked = true → (Agent.apply_guardrails c e).is_blocked = true) ∧
    (e.draft_reply = none → (Agent.apply_guardrails c e).draft_reply = none) := by
  have h1 := piiStep_frame c e
  have h2 := domainStep_frame c (Agent.piiStep c e)
  have h3 := toneStep_frame c (Agent.domainStep c (Agent.piiStep c e))
  have h4 := replyAllStep_frame c
    (Agent.toneStep c (Agent.domainStep c (Agent.piiStep c e)))
  have h5 := finalGate_frame c
    (Agent.replyAllStep c (Agent.toneStep c (Agent.domainStep c (Agent.piiStep c e))))
  unfold Agent.apply_guardrails
  refine ⟨?_, ?_, ?_⟩
  · rw [h5.1, h4.1, h3.1, h2.1, h1.1]
  · intro hb
    rw [h5.2.1]
    exact h4.2.1 (by rw [h3.2.1, h2.2.1, h1.2.1]; exact hb)
  · intro hdn
    exact h5.2.2 (h4.2.2.1 (by rw [h3.2.2.1, h2.2.2.1, h1.2.2.1]; exact hdn))

/-- The guardrail stage leaves every email in `APPROVAL_REQUIRED` or
`DRAFT_READY`. -/
theorem guardrails_status (c : Agent.Collab) (e : Agent.ProcessedEmail) :
    (Agent.apply_guardrails c e).status = Agent.ProcessingStatus.approval_required ∨
    (Agent.apply_guardrails c e).status = Agent.ProcessingStatus.draft_ready :=
  finalGate_status c _

/-! ## C1 — drafts and the approval gate -/

/-- C1 (counterexample): a completed batch can hold a draft with
`requires_approval = false` — for an internal sender with no security
flags the guardrail stage resets the drafter's `requires_approval = true`
to `false` ("can auto-send"). -/
theorem C1_counterexample :
    (Agent.runPipeline (Agent.demoCollab false) 0 [Agent.demoMeta]).map
        (fun e => e.draft_reply.map (fun d => d.requires_approval))
      = [some false] := by
  decide

/-- C1 (amended): at batch completion a held draft requires approval
exactly when its email is from an external sender or carries a security
flag; in the internal, flag-free case the guardrail stage leaves
`requires_approval = false` on the draft. -/
theorem C1_requires_approval_iff (c : Agent.Collab) (now : Int)
    (metas : List Agent.EmailMetadata) (e : Agent.ProcessedEmail)
    (he : e ∈ Agent.runPipeline c now metas) (d : Agent.DraftReply)
    (hd : e.draft_reply = some d) :
    (d.requires_approval = true ↔
      (c.isExternalEmail e.metadata = true ∨ e.security_flags ≠ [])) := by
  unfold Agent.runPipeline at he
  obtain ⟨e3, _, rfl⟩ := List.mem_map.mp he
  exact finalGate_requires_approval c _ d hd

/-- C1 (witness): the amended gate evaluated on the demonstration batch,
whose single email is internal and flag-free. -/
theorem C1_witness :
    Agent.demoDraft.requires_approval = true ↔
      ((Agent.demoCollab false).isExternalEmail Agent.demoOut.metadata = true ∨
       Agent.demoOut.security_flags ≠ []) :=
  C1_requires_approval_iff (Agent.demoCollab false) 0 [Agent.demoMeta]
    Agent.demoOut (by decide) Agent.demoDraft (by decide)

/-! ## C3 — the spam short-circuit -/

/-- C3 (counterexample): the spam check sets `BLOCKED`, but the guardrail
stage later runs on blocked emails too and overwrites the status — the
spam email of the demonstration batch completes with `DRAFT_READY`, not
`BLOCKED`. -/
theorem C3_counterexample :
    (Agent.runPipeline (Agent.demoCollab true) 0 [Agent.demoMeta]).map
        (fun e => (e.is_spam, e.status))
      = [(true, Agent.ProcessingStatus.draft_ready)] ∧
    Agent.ProcessingStatus.draft_ready ≠ Agent.ProcessingStatus.blocked := by
  decide

/-- C3 (amended): a spam email of a completed batch holds no draft and
stays `is_blocked = true`, but its final status is not `BLOCKED`: the
guardrail stage overwrites it to `APPROVAL_REQUIRED` or `DRAFT_READY`. -/
theorem C3_spam_short_circuit (c : Agent.Collab) (now : Int)
    (metas : List Agent.EmailMetadata) (e : Agent.ProcessedEmail)
    (he : e ∈ Agent.runPipeline c now metas) (hs : e.is_spam = true) :
    e.draft_reply = none ∧ e.is_blocked = true ∧
    (e.status = Agent.ProcessingStatus.approval_required ∨
     e.status = Agent.ProcessingStatus.draft_ready) := by
  unfold Agent.runPipeline at he
  obtain ⟨e3, he3, rfl⟩ := List.mem_map.mp he
  obtain ⟨e2, he2, rfl⟩ := List.mem_map.mp he3
  unfold Agent.handle_edge_cases at he2
  obtain ⟨e1, he1, rfl⟩ := List.mem_map.mp he2
  obtain ⟨e0, he0, rfl⟩ := List.mem_map.mp he1
  obtain ⟨ec, hec, hfields⟩ := handleConflicts_mem _ _ he0
  obtain ⟨em, hem, rfl⟩ := List.mem_map.mp hec
  obtain ⟨m, _, rfl⟩ := List.mem_map.mp hem
  -- spam propagates backwards to the core stage's output
  have hg := guardrails_frame c (Agent.draftGate c now (Agent.dndGate c (Agent.legalStep e0)))
  have hdg := draftGate_frame c now (Agent.dndGate c (Agent.legalStep e0))
  have hdd := dndGate_frame c (Agent.legalStep e0)
  have hl := legalStep_frame e0
  have hsp0 : e0.is_spam = true := by
    rw [hg.1, hdg.1, hdd.1, hl.1] at hs
    exact hs
  have hspc : (Agent.process_email_core_pipeline c
      (Agent.create_processed_email m)).is_spam = true := by
    rw [← hfields.2.2.1]
    exact hsp0
  -- the core stage blocked it and left the (empty) draft slot alone
  obtain ⟨hblk, hdr, _⟩ := core_spam c (Agent.create_processed_email m) hspc
  have hdr0 : e0.draft_reply = none := by
    rw [hfields.2.2.2.2.1, hdr]
    rfl
  have hblk0 : e0.is_blocked = true := by
    rw [hfields.2.2.2.1]
    exact hblk
  -- propagate forwards through the remaining stages
  have hblk2 : (Agent.dndGate c (Agent.legalStep e0)).is_blocked = true := by
    rw [hdd.2.1, hl.2.1]
    exact hblk0
  have hdr2 : (Agent.dndGate c (Agent.legalStep e0)).draft_reply = none := by
    rw [hdd.2.2.1, hl.2.2.1]
    exact hdr0
  have hgate : Agent.draftGate c now (Agent.dndGate c (Agent.legalStep e0))
      = Agent.dndGate c (Agent.legalStep e0) := hdg.2.2 hblk2
  refine ⟨?_, ?_, ?_⟩
  · exact hg.2.2 (by rw [hgate]; exact hdr2)
  · exact hg.2.1 (by rw [hgate]; exact hblk2)
  · exact guardrails_status c _

/-- C3 (witness): the amended short-circuit on the spam email of the
demonstration batch. -/
theorem C3_witness :
    Agent.spamOut.draft_reply = none ∧ Agent.spamOut.is_blocked = true ∧
    (Agent.spamOut.status = Agent.ProcessingStatus.approval_required ∨
     Agent.spamOut.status = Agent.ProcessingStatus.draft_ready) :=
  C3_spam_short_circuit (Agent.demoCollab true) 0 [Agent.demoMeta]
    Agent.spamOut (by decide) (by decide)

/-! ## C8 — conflict resolution -/

/-- C8 (counterexample): after conflict resolution the older email of the
duplicated sender (`a1`) is gone from the batch's email list — it does not
"remain in the queue" — and the email of the *unconflicted* sender (`b1`)
has the superseded note spuriously appended. -/
theorem C8_counterexample :
    ((Agent.handleConflicts Agent.conflictBatch).map
        (fun e => e.metadata.message_id)) = ["b1", "a2"] ∧
    (∃ e ∈ Agent.conflictBatch, e.metadata.message_id = "a1") ∧
    ¬(∃ e ∈ Agent.handleConflicts Agent.conflictBatch,
        e.metadata.message_id = "a1") ∧
    (∃ e ∈ Agent.handleConflicts Agent.conflictBatch,
        e.metadata.message_id = "b1" ∧
        e.processing_notes = [Agent.supersededNote]) := by
  decide

/-- C8 (amended): for every sender with at least two emails in a batch
with distinct message ids, conflict resolution keeps exactly the most
recent of that sender's emails (the resolver's winner, maximal by date):
the winner stays in the email list unchanged, every other email of that
sender is removed from the list (rather than remaining with a note), and
every email still in the list is an input email changed at most by the
appended superseded note (in particular its status is unchanged). -/
theorem C8_conflict_resolution (emails : List Agent.ProcessedEmail)
    (hids : (emails.map (fun e => e.metadata.message_id)).Nodup)
    (s : String)
    (hs : 2 ≤ (emails.map (fun e => e.metadata.sender)).count s) :
    ∃ w, Agent.pickLatest (emails.filter (fun e => e.metadata.sender = s)) = some w ∧
      w ∈ Agent.handleConflicts emails ∧
      (∀ e ∈ emails, e.metadata.sender = s → Agent.dateVal e ≤ Agent.dateVal w) ∧
      (∀ e ∈ emails, e.metadata.sender = s →
        e.metadata.message_id ≠ w.metadata.message_id →
        ∀ e2 ∈ Agent.handleConflicts emails,
          e2.metadata.message_id ≠ e.metadata.message_id) ∧
      (∀ e2 ∈ Agent.handleConflicts emails, ∃ e1 ∈ emails,
        e2.metadata = e1.metadata ∧ e2.status = e1.status ∧
        e2.draft_reply = e1.draft_reply ∧
        (e2 = e1 ∨ e2.processing_notes = e1.processing_notes ++ [Agent.supersededNote])) := by
  have hsc : s ∈ Agent.conflictSenders emails := mem_conflictSenders emails s hs
  have hne : Agent.conflictSenders emails ≠ [] := List.ne_nil_of_mem hsc
  have hnotempty : ¬((Agent.conflictSenders emails).isEmpty = true) := by
    simpa [List.isEmpty_iff] using hne
  have h0 : 0 < (emails.map (fun e => e.metadata.sender)).count s := by omega
  have hmm : s ∈ emails.map (fun e => e.metadata.sender) :=
    List.count_pos_iff.mp h0
  obtain ⟨eA, heA, hsA⟩ := List.mem_map.mp hmm
  have hfA : eA ∈ emails.filter (fun e => e.metadata.sender = s) :=
    List.mem_filter.mpr ⟨heA, by simp [hsA]⟩
  cases hflist : emails.filter (fun e => e.metadata.sender = s) with
  | nil =>
    rw [hflist] at hfA
    cases hfA
  | cons a t =>
    obtain ⟨w, hw, hmax⟩ := pickLatest_spec a t
    have hwp : Agent.pickLatest (emails.filter (fun e => e.metadata.sender = s))
        = some w := by
      rw [hflist]
      exact hw
    refine ⟨w, hw, ?_, ?_, ?_, ?_⟩
    · rw [Agent.handleConflicts.eq_def, if_neg hnotempty]
      exact List.mem_append_right _ (List.mem_filterMap.mpr ⟨s, hsc, hwp⟩)
    · intro e he hse
      have hef : e ∈ emails.filter (fun x => x.metadata.sender = s) :=
        List.mem_filter.mpr ⟨he, by simp [hse]⟩
      rw [hflist] at hef
      exact hmax e hef
    · intro e he hse hneid e2 he2
      rw [Agent.handleConflicts.eq_def, if_neg hnotempty] at he2
      intro heq
      rcases List.mem_append.mp he2 with h2 | h2
      · have hpred := (List.mem_filter.mp h2).2
        have h3 := List.mem_of_mem_filter h2
        obtain ⟨x, hx, hgx⟩ := List.mem_map.mp h3
        have hxid : e2.metadata = x.metadata := by
          split_ifs at hgx
          · cases hgx
            rfl
          · cases hgx
            rfl
        have hxe : x = e := by
          apply List.inj_on_of_nodup_map hids hx he
          rw [← hxid]
          exact heq
        have hsnd : e2.metadata.sender = s := by
          rw [hxid, hxe, hse]
        rw [hsnd] at hpred
        simp [hsc] at hpred
      · obtain ⟨s2, hs2mem, hp2⟩ := List.mem_filterMap.mp h2
        have h3 := pickLatest_mem _ _ hp2
        have he2emails := List.mem_of_mem_filter h3
        have he2sender : e2.metadata.sender = s2 := by
          simpa using (List.mem_filter.mp h3).2
        have hxe : e2 = e := List.inj_on_of_nodup_map hids he2emails he heq
        have hs2s : s2 = s := by
          rw [← he2sender, hxe, hse]
        rw [hs2s] at hp2
        have hew : e2 = w := by
          have hsw := hwp.symm.trans hp2
          injection hsw with hsw
          exact hsw.symm
        apply hneid
        rw [← heq, hew]
    · intro e2 he2
      obtain ⟨e1, he1, hm, hst, _, _, hdr, _, _, _, _, hnote⟩ :=
        handleConflicts_mem emails e2 he2
      exact ⟨e1, he1, hm, hst, hdr, hnote⟩

/-- C8 (witness): the amended conflict resolution on a concrete batch with
two emails from one sender and one from another. -/
theorem C8_witness :
    ∃ w, Agent.pickLatest (Agent.conflictBatch.filter
        (fun e => e.metadata.sender = "alice@partner.example")) = some w ∧
      w ∈ Agent.handleConflicts Agent.conflictBatch ∧
      (∀ e ∈ Agent.conflictBatch, e.metadata.sender = "alice@partner.example" →
        Agent.dateVal e ≤ Agent.dateVal w) ∧
      (∀ e ∈ Agent.conflictBatch, e.metadata.sender = "alice@partner.example" →
        e.metadata.message_id ≠ w.metadata.message_id →
        ∀ e2 ∈ Agent.handleConflicts Agent.conflictBatch,
          e2.metadata.message_id ≠ e.metadata.message_id) ∧
      (∀ e2 ∈ Agent.handleConflicts Agent.conflictBatch, ∃ e1 ∈ Agent.conflictBatch,
        e2.metadata = e1.metadata ∧ e2.status = e1.status ∧
        e2.draft_reply = e1.draft_reply ∧
        (e2 = e1 ∨ e2.processing_notes = e1.processing_notes ++ [Agent.supersededNote])) :=
  C8_conflict_resolution Agent.conflictBatch (by decide)
    "alice@partner.example" (by decide)
